import Mathlib

/-!
Verification of the `ui-design-skills` design-token pipeline.

Shallow embedding of the four Python scripts:
  * `design-system-extractor/scripts/validate_tokens.py`   (namespace `ValidateTokens`)
  * `design-system-web-applier/scripts/generate_css.py`    (namespace `GenerateCss`)
  * `design-system-mobile-applier/scripts/generate_kotlin.py` (namespace `GenerateKotlin`)
  * `design-system-mobile-applier/scripts/generate_swift.py`  (namespace `GenerateSwift`)

Parsed JSON documents are modelled by the inductive type `Json` (Python
distinguishes `int` and `float`, so the model does too).  Python code that can
raise an exception is modelled in `Except PyErr`; pure Python code is modelled
by total functions.  Python `float` arithmetic is modelled by `ℚ`: every
numeric literal the scripts inspect is a short decimal string, on which float
arithmetic and Python's shortest-round-trip formatting agree with exact
rational arithmetic and minimal-decimal formatting.
-/

/-- A parsed Python value as produced by `json.loads`. -/
inductive Json where
  | str : String → Json
  | int : Int → Json
  | float : ℚ → Json
  | bool : Bool → Json
  | null : Json
  | arr : List Json → Json
  | obj : List (String × Json) → Json

/-- A parsed JSON object (Python `dict`): insertion-ordered key/value pairs. -/
abbrev PyDict := List (String × Json)

/-- Python exceptions that the modelled code can raise. -/
inductive PyErr where
  | typeError
  | valueError
  | attributeError
  | keyError
deriving DecidableEq

namespace Py

/-- Python `x == s` for a string literal `s`: only equal strings compare equal. -/
def Json.eqStr : Json → String → Bool
  | .str t, s => t = s
  | _, _ => false

/-- Key lookup in a Python dict (first match). -/
def lookupKey (kvs : PyDict) (k : String) : Option Json :=
  List.lookup k kvs

/-- Python `k in d` for a dict. -/
def hasKey (kvs : PyDict) (k : String) : Bool :=
  (lookupKey kvs k).isSome

/-- Python `d.items()`: raises `AttributeError` on a non-dict. -/
def pyItems : Json → Except PyErr PyDict
  | .obj kvs => .ok kvs
  | _ => .error .attributeError

/-- Python `d.get(k, default)`: raises `AttributeError` on a non-dict. -/
def pyGet (j : Json) (k : String) (d : Json) : Except PyErr Json :=
  match j with
  | .obj kvs => .ok ((lookupKey kvs k).getD d)
  | _ => .error .attributeError

/-- Python `d[k]` subscription. -/
def pySubscript (j : Json) (k : String) : Except PyErr Json :=
  match j with
  | .obj kvs =>
    match lookupKey kvs k with
    | some v => .ok v
    | none => .error .keyError
  | _ => .error .typeError

/-- `isPre p l`: `p` begins `l` (character lists). -/
def isPre : List Char → List Char → Bool
  | [], _ => true
  | _ :: _, [] => false
  | a :: as, b :: bs => a = b && isPre as bs

/-- `listOccurs p l`: `p` occurs contiguously inside `l`. -/
def listOccurs (p : List Char) : List Char → Bool
  | [] => isPre p []
  | l@(_ :: rest) => isPre p l || listOccurs p rest

/-- Python substring test `needle in s` for strings. -/
def occursIn (needle s : String) : Bool :=
  listOccurs needle.data s.data

/-- Python `needle in container` (`dict` key test, `list` membership,
`str` substring; `TypeError` otherwise). -/
def pyContains (needle : String) : Json → Except PyErr Bool
  | .obj kvs => .ok (hasKey kvs needle)
  | .arr xs => .ok (xs.any (fun x => Json.eqStr x needle))
  | .str s => .ok (occursIn needle s)
  | _ => .error .typeError

/-- Python `type(x).__name__`. -/
def pyTypeName : Json → String
  | .str _ => "str"
  | .int _ => "int"
  | .float _ => "float"
  | .bool _ => "bool"
  | .null => "NoneType"
  | .arr _ => "list"
  | .obj _ => "dict"

/-- Decimal digit run to a natural number. -/
def digitsToNat (cs : List Char) : Nat :=
  cs.foldl (fun acc c => acc * 10 + (c.toNat - '0'.toNat)) 0

/-- Rational addition via `mkRat` (the kernel reduces `mkRat` but not
`Rat.add`; used so that concrete instances are checkable by `decide`). -/
def qAdd (a b : ℚ) : ℚ := mkRat (a.num * b.den + b.num * a.den) (a.den * b.den)

/-- Rational multiplication via `mkRat`. -/
def qMul (a b : ℚ) : ℚ := mkRat (a.num * b.num) (a.den * b.den)

/-- Rational subtraction via `mkRat`. -/
def qSub (a b : ℚ) : ℚ := qAdd a (-b)

/-- Rational division via `mkRat` (`0` when the divisor is `0`; every
divisor in scope is nonzero). -/
def qDiv (a b : ℚ) : ℚ :=
  if 0 ≤ b.num then mkRat (a.num * b.den) (a.den * b.num.toNat)
  else mkRat (-(a.num * (b.den : Int))) (a.den * (-b.num).toNat)

/-- The numeric value captured by `^(-?\d+(?:\.\d+)?)px$` converted by
Python `float(...)`: the exact decimal `ip.fp` as a rational. -/
def qOfParts (neg : Bool) (ip fp : List Char) : ℚ :=
  let k := fp.length
  let n : Int := (digitsToNat ip : Int) * ((10 : Nat) ^ k : Nat) + (digitsToNat fp : Int)
  mkRat (if neg then -n else n) ((10 : Nat) ^ k)

/-- `PX_RE = ^(-?\d+(?:\.\d+)?)px$` (all three generator scripts use this
regex verbatim; `validate_tokens.py` uses the equivalent
`^-?\d+(\.\d+)?px$`): returns the captured magnitude on a match. -/
def pxParse (s : String) : Option ℚ :=
  let cs := s.data
  let (neg, cs1) := match cs with
    | '-' :: rest => (true, rest)
    | _ => (false, cs)
  let d1 := cs1.takeWhile Char.isDigit
  let cs2 := cs1.dropWhile Char.isDigit
  if d1 = [] then none
  else
    match cs2 with
    | '.' :: cs3 =>
      let d2 := cs3.takeWhile Char.isDigit
      let cs4 := cs3.dropWhile Char.isDigit
      if d2 = [] then none
      else if cs4 = ['p', 'x'] then some (qOfParts neg d1 d2)
      else none
    | _ => if cs2 = ['p', 'x'] then some (qOfParts neg d1 []) else none

/-- `HEX_RE = ^#[0-9A-Fa-f]{6}$` membership. -/
def isHexDig (c : Char) : Bool :=
  c.isDigit || ('a' ≤ c && c ≤ 'f') || ('A' ≤ c && c ≤ 'F')

/-- Match of `HEX_RE` on a whole string. -/
def hex6 (s : String) : Bool :=
  match s.data with
  | '#' :: rest => rest.length = 6 && rest.all isHexDig
  | _ => false

/-- Drop trailing `'0'` characters of a digit string. -/
def stripZerosRight (s : String) : String :=
  String.mk (s.data.reverse.dropWhile (fun c => c = '0')).reverse

/-- Multiplicity of `p` in `n` (`0` when `p < 2` or `n = 0`). -/
def multP (p : Nat) : Nat → Nat
  | n =>
    if h : 2 ≤ p ∧ 0 < n ∧ n % p = 0 then multP p (n / p) + 1 else 0
termination_by n => n
decreasing_by exact Nat.div_lt_self h.2.1 (by omega)

/-- Python `str(f)` for a float `f` holding an exactly-decimal value:
shortest decimal with at least one fractional digit (`str(5.0) = "5.0"`).
(The scientific notation Python uses beyond `1e16` is not modelled; no
token magnitude in scope reaches it.) -/
def floatToStr (q : ℚ) : String :=
  if q.den = 1 then toString q.num ++ ".0"
  else
    let a := multP 2 q.den
    let b := multP 5 q.den
    if 2 ^ a * 5 ^ b = q.den then
      let k := max a b
      let sgn := if q < 0 then "-" else ""
      let m := (q.num.natAbs * 10 ^ k) / q.den
      let ip := m / 10 ^ k
      let fp := m % 10 ^ k
      let fps := toString fp
      let pad := String.mk (List.replicate (k - fps.length) '0')
      sgn ++ toString ip ++ "." ++ pad ++ fps
    else
      toString q

/-- `a * 10^k` for an integer exponent. -/
def mulPow10 (a : ℚ) (k : Int) : ℚ :=
  if 0 ≤ k then qMul a (mkRat (((10 : Nat) ^ k.toNat : Nat) : Int) 1)
  else qDiv a (mkRat (((10 : Nat) ^ (-k).toNat : Nat) : Int) 1)

/-- For `0 < a`, the decimal exponent `e` with `10^e ≤ a < 10^(e+1)`. -/
def decExp (a : ℚ) : Int :=
  let e0 : Int := ((toString a.num.toNat).length : Int) - ((toString a.den).length : Int)
  if 1 ≤ mulPow10 a (-(e0 + 1)) then e0 + 1
  else if 1 ≤ mulPow10 a (-e0) then e0
  else e0 - 1

/-- Round to the nearest integer, ties to even (IEEE default, used by
Python's float formatting). -/
def roundHalfEven (q : ℚ) : Int :=
  let f := ⌊q⌋
  let r := qSub q (mkRat f 1)
  if r < mkRat 1 2 then f
  else if mkRat 1 2 < r then f + 1
  else if f % 2 = 0 then f else f + 1

/-- Python `format(f, "g")` for an exactly-decimal float: 6 significant
digits, trailing zeros stripped, fixed notation for exponents in `[-4, 6)`,
scientific otherwise. -/
def formatG (q : ℚ) : String :=
  if q = 0 then "0"
  else
    let sgn := if q < 0 then "-" else ""
    let a := |q|
    let e1 := decExp a
    let m0 := roundHalfEven (mulPow10 a (5 - e1))
    let m := if m0 ≥ 1000000 then m0 / 10 else m0
    let e := if m0 ≥ 1000000 then e1 + 1 else e1
    let ds := toString m.toNat
    if -4 ≤ e ∧ e < 6 then
      if 0 ≤ e then
        let ip := String.mk (ds.data.take (e.toNat + 1))
        let fp := stripZerosRight (String.mk (ds.data.drop (e.toNat + 1)))
        sgn ++ ip ++ (if fp = "" then "" else "." ++ fp)
      else
        sgn ++ "0." ++ String.mk (List.replicate (-e - 1).toNat '0') ++ stripZerosRight ds
    else
      let ip := String.mk (ds.data.take 1)
      let fp := stripZerosRight (String.mk (ds.data.drop 1))
      let es := if e < 0 then "-" else "+"
      let ea := (if e < 0 then -e else e).toNat
      let eds := if ea < 10 then "0" ++ toString ea else toString ea
      sgn ++ ip ++ (if fp = "" then "" else "." ++ fp) ++ "e" ++ es ++ eds

/-- Python `s.upper()` (ASCII; all strings in scope are ASCII). -/
def upperStr (s : String) : String :=
  String.mk (s.data.map Char.toUpper)

/-- Python `s.lstrip("#")`: drop every leading `'#'`. -/
def lstripHash (s : String) : String :=
  String.mk (s.data.dropWhile (fun c => c = '#'))

mutual

/-- Python `repr(x)` for JSON-shaped values (string escaping inside nested
reprs is not modelled; no theorem depends on it). -/
def pyReprJson : Json → String
  | .str s => "'" ++ s ++ "'"
  | .int n => toString n
  | .float q => floatToStr q
  | .bool b => if b then "True" else "False"
  | .null => "None"
  | .arr xs => "[" ++ ", ".intercalate (pyReprItems xs) ++ "]"
  | .obj kvs => "\x7b" ++ ", ".intercalate (pyReprPairs kvs) ++ "\x7d"
termination_by j => sizeOf j

/-- `repr` of the elements of a list. -/
def pyReprItems : List Json → List String
  | [] => []
  | x :: xs => pyReprJson x :: pyReprItems xs
termination_by xs => sizeOf xs

/-- `repr` of the entries of a dict. -/
def pyReprPairs : List (String × Json) → List String
  | [] => []
  | (k, v) :: xs => ("'" ++ k ++ "': " ++ pyReprJson v) :: pyReprPairs xs
termination_by xs => sizeOf xs

end

/-- Python `str(x)` / f-string interpolation of a JSON-shaped value. -/
def pyStrJson : Json → String
  | .str s => s
  | j => pyReprJson j

/-- Python whitespace as stripped by `int(str)`. -/
def isPySpace (c : Char) : Bool :=
  c = ' ' || c = '\t' || c = '\n' || c = '\r' || c = '\x0b' || c = '\x0c'

/-- After the sign of an integer literal: digit groups separated by single
underscores (`int("1_0") = 10`), at least one digit. -/
def intDigitsRun : List Char → Bool
  | [] => false
  | c :: cs =>
    c.isDigit && intDigitsRest cs
where
  intDigitsRest : List Char → Bool
    | [] => true
    | '_' :: c :: cs => c.isDigit && intDigitsRest cs
    | '_' :: [] => false
    | c :: cs => c.isDigit && intDigitsRest cs

/-- Python `int(s)` for a string: strips whitespace, optional sign, decimal
digits with single underscores between digits; `none` models `ValueError`. -/
def pyIntOfStr (s : String) : Option Int :=
  let cs := (s.data.dropWhile isPySpace).reverse.dropWhile isPySpace |>.reverse
  let (neg, body) := match cs with
    | '-' :: rest => (true, rest)
    | '+' :: rest => (false, rest)
    | _ => (false, cs)
  if intDigitsRun body then
    let n : Nat := digitsToNat (body.filter Char.isDigit)
    some (if neg then -(n : Int) else (n : Int))
  else none

/-- Truncation toward zero, as Python `int(float)`. -/
def pyTrunc (q : ℚ) : Int :=
  if 0 ≤ q then ⌊q⌋ else -⌊-q⌋

/-- Python `int(x)`: `ValueError` on a bad string, `TypeError` on
non-numeric types; bools are ints (`int(True) = 1`). -/
def pyIntEx : Json → Except PyErr Int
  | .str s =>
    match pyIntOfStr s with
    | some n => .ok n
    | none => .error .valueError
  | .int n => .ok n
  | .float q => .ok (pyTrunc q)
  | .bool b => .ok (if b then 1 else 0)
  | _ => .error .typeError

end Py

namespace GenerateCss

/-- `REQUIRED_SECTIONS` of `generate_css.py`. -/
def REQUIRED_SECTIONS : List String :=
  ["meta", "color", "typography", "spacing", "borderRadius", "shadow"]

/-- `SECTION_PREFIX` map (renamed: the gate reserves the suffix). -/
def sectionVarStem : List (String × String) :=
  [("color", "color"), ("spacing", "space"), ("borderRadius", "radius"), ("shadow", "shadow")]

/-- `TYPOGRAPHY_PREFIX` map (renamed: the gate reserves the suffix). -/
def typographyVarStem : List (String × String) :=
  [("font-family-heading", "font-heading"), ("font-family-body", "font-body"),
   ("font-family-mono", "font-mono"), ("font-size", "font-size"),
   ("font-weight", "font-weight"), ("line-height", "line-height"),
   ("letter-spacing", "letter-spacing")]

/-- `PASSTHROUGH_TYPES`. -/
def PASSTHROUGH_TYPES : List String :=
  ["color", "fontFamily", "fontWeight", "fontSource", "number", "shadow"]

/-- `px_to_rem`: convert `px` values to `rem`, pass through non-px values. -/
def px_to_rem (value : String) : String :=
  match Py.pxParse value with
  | none => value
  | some px =>
    if px = 9999 then "9999px"
    else if px = 0 then "0"
    else
      let rem := Py.qDiv px 16
      if rem.den = 1 then toString rem.num ++ "rem"
      else Py.formatG rem ++ "rem"

/-- `convert_value`: convert a token value for CSS output. -/
def convert_value (value : Json) (token_type : Json) : Except PyErr Json :=
  if PASSTHROUGH_TYPES.any (fun t => Py.Json.eqStr token_type t) then .ok value
  else if Py.Json.eqStr token_type "dimension" then
    if Py.Json.eqStr value "0" then .ok (.str "0")
    else
      match value with
      | .str s => .ok (.str (px_to_rem s))
      | _ => .error .typeError
  else .ok value

/-- `build_css_variable_name`. -/
def build_css_variable_name (sec key : String) (subkey : Option String) : String :=
  if sec = "typography" then
    let stem := (List.lookup key typographyVarStem).getD key
    match subkey with
    | some sk => "--" ++ stem ++ "-" ++ sk
    | none => "--" ++ stem
  else
    let stem := (List.lookup sec sectionVarStem).getD sec
    "--" ++ stem ++ "-" ++ key

/-- Python `s.lstrip("-")`. -/
def lstripDash (s : String) : String :=
  String.mk (s.data.dropWhile (fun c => c = '-'))

/-- `build_scss_variable_name`. -/
def build_scss_variable_name (sec key : String) (subkey : Option String) : String :=
  "$" ++ lstripDash (build_css_variable_name sec key subkey)

/-- `generate_header` (the `date.today().isoformat()` call is modelled by the
`today` argument). -/
def generate_header (meta : Json) (fmt today : String) : Except PyErr String := do
  let name ← Py.pyGet meta "name" (.str "Design System")
  let source ← Py.pyGet meta "source" (.str "Unknown")
  let version ← Py.pyGet meta "version" (.str "1.0.0")
  pure ("\n".intercalate
    ["/* " ++ Py.pyStrJson name,
     " * Source: " ++ Py.pyStrJson source,
     " * Version: " ++ Py.pyStrJson version,
     " * Generated: " ++ today,
     " * Format: " ++ (if fmt = "scss" then "SCSS" else "CSS Custom Properties"),
     " */"])

/-- The numeric value of a JSON leaf under Python `==` (ints, floats and
bools compare numerically across types). -/
def numQ : Json → Option ℚ
  | .int n => some (mkRat n 1)
  | .float q => some q
  | .bool b => some (if b then 1 else 0)
  | _ => none

mutual

/-- Python `==` on JSON-shaped values (dict comparison is modelled on the
ordered entry lists; no theorem exercises unordered dict equality). -/
def jsonPyEq : Json → Json → Bool
  | .str a, .str b => a = b
  | .null, .null => true
  | .arr a, .arr b => listPyEq a b
  | .obj a, .obj b => pairsPyEq a b
  | x, y =>
    match numQ x, numQ y with
    | some a, some b => a = b
    | _, _ => false
termination_by x _ => sizeOf x

/-- Elementwise Python `==` on lists. -/
def listPyEq : List Json → List Json → Bool
  | [], [] => true
  | x :: xs, y :: ys => jsonPyEq x y && listPyEq xs ys
  | _, _ => false
termination_by xs _ => sizeOf xs

/-- Entrywise Python `==` on dict entry lists. -/
def pairsPyEq : PyDict → PyDict → Bool
  | [], [] => true
  | (k, v) :: xs, (k', v') :: ys => k = k' && jsonPyEq v v' && pairsPyEq xs ys
  | _, _ => false
termination_by xs _ => sizeOf xs

end

/-- The loop body of `collect_font_sources`: accumulate unique non-"system"
font source URLs. -/
def fsrcItems : PyDict → List Json → List Json
  | [], acc => acc
  | (_k, token) :: rest, acc =>
    match token with
    | .obj t =>
      match Py.lookupKey t "value" with
      | some url =>
        if !jsonPyEq url (.str "system") && !acc.any (fun u => jsonPyEq u url) then
          fsrcItems rest (acc ++ [url])
        else fsrcItems rest acc
      | none => fsrcItems rest acc
    | _ => fsrcItems rest acc

/-- `collect_font_sources`. -/
def collect_font_sources (data : PyDict) : Except PyErr (List Json) := do
  let fs ← Py.pyGet ((Py.lookupKey data "typography").getD (.obj [])) "font-source" (.obj [])
  let items ← Py.pyItems fs
  pure (fsrcItems items [])

/-- `generate_font_imports`. -/
def generate_font_imports (data : PyDict) : Except PyErr String := do
  let urls ← collect_font_sources data
  if urls.isEmpty then pure ""
  else pure ("\n".intercalate (urls.map (fun u => "@import url('" ++ Py.pyStrJson u ++ "');")))

/-- One collected token: CSS variable name, SCSS variable name, converted
value, section. -/
abbrev CToken := String × String × Json × String

/-- The `else` branch of `collect_tokens`' section loop (flat sections). -/
def plainTokens (sec : String) : PyDict → Except PyErr (List CToken)
  | [] => .ok []
  | (key, val) :: rest => do
    let here ← match val with
      | .obj t =>
        if Py.hasKey t "value" && Py.hasKey t "type" then do
          let conv ← convert_value ((Py.lookupKey t "value").getD .null)
            ((Py.lookupKey t "type").getD .null)
          pure [(build_css_variable_name sec key none,
                 build_scss_variable_name sec key none, conv, sec)]
        else pure ([] : List CToken)
      | _ => pure ([] : List CToken)
    let more ← plainTokens sec rest
    pure (here ++ more)

/-- The nested-group loop of `collect_tokens`' typography branch. -/
def typoSubTokens (key : String) : PyDict → Except PyErr (List CToken)
  | [] => .ok []
  | (subkey, subval) :: rest => do
    let here ← match subval with
      | .obj t =>
        if Py.hasKey t "value" && Py.hasKey t "type" then do
          let conv ← convert_value ((Py.lookupKey t "value").getD .null)
            ((Py.lookupKey t "type").getD .null)
          pure [(build_css_variable_name "typography" key (some subkey),
                 build_scss_variable_name "typography" key (some subkey), conv, "typography")]
        else pure ([] : List CToken)
      | _ => pure ([] : List CToken)
    let more ← typoSubTokens key rest
    pure (here ++ more)

/-- The typography branch of `collect_tokens`' section loop. -/
def typoTokens : PyDict → Except PyErr (List CToken)
  | [] => .ok []
  | (key, val) :: rest => do
    let here ← if key = "font-source" then pure ([] : List CToken)
      else
        match val with
        | .obj t =>
          if Py.hasKey t "value" && Py.hasKey t "type" then do
            let conv ← convert_value ((Py.lookupKey t "value").getD .null)
              ((Py.lookupKey t "type").getD .null)
            pure [(build_css_variable_name "typography" key none,
                   build_scss_variable_name "typography" key none, conv, "typography")]
          else typoSubTokens key t
        | _ => pure ([] : List CToken)
    let more ← typoTokens rest
    pure (here ++ more)

/-- `collect_tokens`: walk the five sections in canonical order. -/
def collect_tokens (data : PyDict) : Except PyErr (List CToken) := do
  let e1 ← sectionTokens data "color"
  let e2 ← sectionTokens data "typography"
  let e3 ← sectionTokens data "spacing"
  let e4 ← sectionTokens data "borderRadius"
  let e5 ← sectionTokens data "shadow"
  pure (e1 ++ e2 ++ e3 ++ e4 ++ e5)
where
  /-- One iteration of the `section_order` loop. -/
  sectionTokens (data : PyDict) (sec : String) : Except PyErr (List CToken) :=
    match Py.lookupKey data sec with
    | none => .ok []
    | some sd => do
      let items ← Py.pyItems sd
      if sec = "typography" then typoTokens items
      else plainTokens sec items

/-- `SECTION_LABELS`. -/
def SECTION_LABELS : List (String × String) :=
  [("color", "Colors"), ("typography", "Typography"), ("spacing", "Spacing"),
   ("borderRadius", "Border Radius"), ("shadow", "Shadows")]

/-- The `:root` body loop of `generate_css`: emit a comment header at each
section change, then the declaration line. -/
def cssBodyLines : List CToken → Option String → List String
  | [], _ => []
  | (css, _, value, sec) :: rest, cur =>
    (if cur ≠ some sec then
      (if cur = none then [] else [""]) ++
        ["  /* " ++ (List.lookup sec SECTION_LABELS).getD sec ++ " */"]
     else []) ++
    ["  " ++ css ++ ": " ++ Py.pyStrJson value ++ ";"] ++
    cssBodyLines rest (some sec)

/-- The `lines` list built by `generate_css` before the final join. -/
def generate_css_lines (data : PyDict) (today : String) : Except PyErr (List String) := do
  let tokens ← collect_tokens data
  let header ← generate_header ((Py.lookupKey data "meta").getD (.obj [])) "css" today
  let font_imports ← generate_font_imports data
  pure ([header, ""] ++ (if font_imports = "" then [] else [font_imports, ""]) ++
    [":root \x7b"] ++ cssBodyLines tokens none ++ ["\x7d", ""])

/-- `generate_css`: the joined output text. -/
def generate_css (data : PyDict) (today : String) : Except PyErr String := do
  let lines ← generate_css_lines data today
  pure ("\n".intercalate lines)

/-- Replacement for one `TOKEN_REF_RE` match in `resolve_token_ref`:
`token_map.get(path, m.group(0))`. -/
def lookupRepl (token_map : List (String × String)) (body : List Char) : String :=
  match List.lookup (String.mk body) token_map with
  | some r => r
  | none => String.mk ('{' :: body ++ ['}'])

/-- The scan of `TOKEN_REF_RE.sub` (`TOKEN_REF_RE = \{([^}]+)\}`), as a
left-to-right scan.  The state carries the body accumulated since the last
unmatched `'{'` (`[^}]` admits every character but `'}'`, including `'{'`,
so a match runs from a `'{'` to the next `'}'` when at least one character
lies between; an unclosed or empty candidate is emitted literally, exactly
as `re.sub` leaves unmatched text). -/
def subScan (token_map : List (String × String)) : Option (List Char) → List Char → List Char
  | none, [] => []
  | some body, [] => '{' :: body
  | none, c :: cs =>
    if c = '{' then subScan token_map (some []) cs
    else c :: subScan token_map none cs
  | some body, c :: cs =>
    if c = '}' then
      if body = [] then '{' :: '}' :: subScan token_map none cs
      else (lookupRepl token_map body).data ++ subScan token_map none cs
    else subScan token_map (some (body ++ [c])) cs

/-- `resolve_token_ref`: resolve `{token.path}` references to
`var(--css-name)` calls. -/
def resolve_token_ref (value : String) (token_map : List (String × String)) : String :=
  String.mk (subScan token_map none value.data)

/-- A segment of a value string as scanned by `TOKEN_REF_RE.sub`: a literal
character or a `{path}` reference span with the given path characters. -/
inductive Seg where
  | lit : Char → Seg
  | ref : List Char → Seg
deriving DecidableEq

/-- The segment decomposition corresponding to `subScan`'s scan. -/
def scanSegs : Option (List Char) → List Char → List Seg
  | none, [] => []
  | some body, [] => ('{' :: body).map .lit
  | none, c :: cs =>
    if c = '{' then scanSegs (some []) cs
    else .lit c :: scanSegs none cs
  | some body, c :: cs =>
    if c = '}' then
      if body = [] then .lit '{' :: .lit '}' :: scanSegs none cs
      else .ref body :: scanSegs none cs
    else scanSegs (some (body ++ [c])) cs

/-- The segments of a whole value string. -/
def parseSegs (cs : List Char) : List Seg :=
  scanSegs none cs

/-- The original text of a segment. -/
def segOrig : Seg → List Char
  | .lit c => [c]
  | .ref p => '{' :: p ++ ['}']

/-- The resolved text of a segment under a token map. -/
def segRes (token_map : List (String × String)) : Seg → List Char
  | .lit c => [c]
  | .ref p => (lookupRepl token_map p).data

/-- Well-formedness of a reference segment: nonempty path without `'}'`
(the `[^}]+` capture grammar). -/
def segWF : Seg → Prop
  | .lit _ => True
  | .ref p => p ≠ [] ∧ '}' ∉ p

end GenerateCss

namespace GenerateKotlin

/-- `px_to_dp` from `generate_kotlin.py`: numeric dp string, pass-through
for non-px values (`str(int(px))` when whole, `str(px)` otherwise). -/
def px_to_dp (value : String) : String :=
  match Py.pxParse value with
  | none => value
  | some px =>
    if px.den = 1 then toString px.num
    else Py.floatToStr px

/-- `hex_to_argb`: `#RRGGBB` to `0xFFRRGGBB`. -/
def hex_to_argb (hex_str : String) : String :=
  "0xFF" ++ Py.upperStr (Py.lstripHash hex_str)

/-- One `<color>` line emitted by `generate_xml_colors`
(`#AARRGGBB` with alpha `FF`). -/
def xml_color_line (xml_name hex_val : String) : String :=
  "    <color name=\"" ++ xml_name ++ "\">#FF" ++ Py.upperStr (Py.lstripHash hex_val) ++ "</color>"

end GenerateKotlin

namespace GenerateSwift

/-- `px_to_cgfloat` from `generate_swift.py`: numeric CGFloat string,
pass-through for non-px values (`str(int(px))` when whole, `str(px)`
otherwise). -/
def px_to_cgfloat (value : String) : String :=
  match Py.pxParse value with
  | some px =>
    if px.den = 1 then toString px.num
    else Py.floatToStr px
  | none => value

end GenerateSwift

namespace Py

/-- Whole-string match of the validator's px regex `^-?\d+(\.\d+)?px$`. -/
def pxMatch (s : String) : Bool :=
  (pxParse s).isSome

/-- A character of the validator's `TOKEN_REF_RE` charset `[\w.-]`
(ASCII `\w`; no token path in scope uses non-ASCII word characters). -/
def isRefChar (c : Char) : Bool :=
  c.isAlphanum || c = '_' || c = '.' || c = '-'

/-- Python `s.strip("{}")`: drop leading and trailing braces. -/
def pyStripBraces (s : String) : String :=
  let isBr : Char → Bool := fun c => c = '{' || c = '}'
  String.mk (((s.data.dropWhile isBr).reverse.dropWhile isBr).reverse)

end Py

namespace ValidateTokens

/-- `REQUIRED_SECTIONS` of `validate_tokens.py`. -/
def REQUIRED_SECTIONS : List String :=
  ["meta", "color", "typography", "spacing", "borderRadius", "shadow"]

/-- `REQUIRED_META_FIELDS`. -/
def REQUIRED_META_FIELDS : List String :=
  ["name", "source", "version", "generated"]

/-- One `\d+\s+` repetition of `SHADOW_RE`; returns the remaining input. -/
def numWs (cs : List Char) : Option (List Char) :=
  let d := cs.takeWhile Char.isDigit
  let r1 := cs.dropWhile Char.isDigit
  if d = [] then none
  else
    let w := r1.takeWhile Py.isPySpace
    let r2 := r1.dropWhile Py.isPySpace
    if w = [] then none else some r2

/-- The `\d+px\s+rgba\(.+\)$` suffix of `SHADOW_RE` (`.` excludes newline). -/
def shadowTail (cs : List Char) : Bool :=
  let d := cs.takeWhile Char.isDigit
  let r := cs.dropWhile Char.isDigit
  d ≠ [] &&
    (match r with
     | 'p' :: 'x' :: r2 =>
       let w := r2.takeWhile Py.isPySpace
       let r3 := r2.dropWhile Py.isPySpace
       w ≠ [] &&
         (match r3 with
          | 'r' :: 'g' :: 'b' :: 'a' :: '(' :: r4 =>
            (match r4.reverse with
             | ')' :: inner => inner ≠ [] && inner.all (fun c => c ≠ '\n')
             | _ => false)
          | _ => false)
     | _ => false)

/-- `SHADOW_RE = ^(\d+\s+){2,3}\d+px\s+rgba\(.+\)$|^none$`: the greedy
`{2,3}` tries three repetitions first, then backtracks to two. -/
def shadowMatch (s : String) : Bool :=
  s = "none" ||
    (match numWs s.data with
     | none => false
     | some r1 =>
       match numWs r1 with
       | none => false
       | some r2 =>
         (match numWs r2 with
          | some r3 => shadowTail r3
          | none => false) || shadowTail r2)

/-- The required-top-level-sections loop of `validate` (pure: `in` on a
dict never raises). -/
def sectionErrs (data : PyDict) : List String :=
  (REQUIRED_SECTIONS.filter (fun s => !Py.hasKey data s)).map
    (fun s => "Missing required section: '" ++ s ++ "'")

/-- The error message for a missing meta field. -/
def metaMsg (f : String) : String :=
  "Missing required meta field: '" ++ f ++ "'"

/-- The meta-fields loop of `validate`: `field not in meta` with Python
`in` semantics per container type (substring test on a string meta,
membership on a list, `TypeError` otherwise). -/
def metaErrs (data : PyDict) : Except PyErr (List String) :=
  match (Py.lookupKey data "meta").getD (.obj []) with
  | .obj kvs =>
    .ok ((REQUIRED_META_FIELDS.filter (fun f => !Py.hasKey kvs f)).map metaMsg)
  | .str s =>
    .ok ((REQUIRED_META_FIELDS.filter (fun f => !Py.occursIn f s)).map metaMsg)
  | .arr xs =>
    .ok ((REQUIRED_META_FIELDS.filter (fun f => !xs.any (fun x => Py.Json.eqStr x f))).map metaMsg)
  | _ => .error .typeError

/-- The per-token body of the color loop.  `HEX_RE.match` raises
`TypeError` on a non-string value. -/
def colorItem (name : String) (token : Json) : Except PyErr (List String) :=
  match token with
  | .obj t => do
    let e1 ← match Py.lookupKey t "value" with
      | none => pure ["color." ++ (name ++ ": missing 'value'")]
      | some v =>
        match v with
        | .str s =>
          pure (if Py.hex6 s then []
            else ["color." ++ (name ++ ": value '" ++ s ++ "' is not a valid 6-digit hex")])
        | _ => (.error .typeError : Except PyErr (List String))
    let e2 := match Py.lookupKey t "type" with
      | none => ["color." ++ (name ++ ": missing 'type'")]
      | some ty =>
        if Py.Json.eqStr ty "color" then []
        else ["color." ++ (name ++ ": type should be 'color', got '" ++ Py.pyStrJson ty ++ "'")]
    pure (e1 ++ e2)
  | _ => .ok ["color." ++ (name ++ ": expected object, got " ++ Py.pyTypeName token)]

/-- The color-section loop. -/
def colorItems : PyDict → Except PyErr (List String)
  | [] => .ok []
  | (name, token) :: rest => do
    let here ← colorItem name token
    let more ← colorItems rest
    pure (here ++ more)

/-- The color pass of `validate` (`.items()` raises on a non-dict section). -/
def colorErrs (data : PyDict) : Except PyErr (List String) := do
  let items ← Py.pyItems ((Py.lookupKey data "color").getD (.obj []))
  colorItems items

/-- The `typography["font-size"]` loop. -/
def fsItems : PyDict → Except PyErr (List String)
  | [] => .ok []
  | (name, token) :: rest => do
    let here ← match token with
      | .obj t =>
        match Py.lookupKey t "value" with
        | some (.str s) =>
          pure (if Py.pxMatch s then []
            else ["typography." ++ ("font-size." ++ name ++ ": value '" ++ s ++ "' should be in px")])
        | some _ => (.error .typeError : Except PyErr (List String))
        | none => pure []
      | _ => pure []
    let more ← fsItems rest
    pure (here ++ more)

/-- The `typography["font-weight"]` loop: `int(...)` with `ValueError`
caught (non-numeric message) and any other exception propagating. -/
def fwItems : PyDict → Except PyErr (List String)
  | [] => .ok []
  | (name, token) :: rest => do
    let here ← match token with
      | .obj t =>
        match Py.lookupKey t "value" with
        | some v =>
          match Py.pyIntEx v with
          | .ok w =>
            pure (if w < 100 || 900 < w || w % 100 ≠ 0 then
                ["typography." ++ ("font-weight." ++ name ++ ": value '" ++ Py.pyStrJson v ++
                  "' should be 100-900 in increments of 100")]
              else [])
          | .error .valueError =>
            pure ["typography." ++ ("font-weight." ++ name ++ ": value '" ++ Py.pyStrJson v ++
              "' should be numeric")]
          | .error e => (.error e : Except PyErr (List String))
        | none => pure []
      | _ => pure []
    let more ← fwItems rest
    pure (here ++ more)

/-- The typography pass of `validate`.  On a non-dict `typography` value,
Python `"font-size" in typo` may succeed (substring or list membership)
and the subsequent `typo["font-size"]` subscription raises `TypeError`. -/
def typoErrs (data : PyDict) : Except PyErr (List String) :=
  match (Py.lookupKey data "typography").getD (.obj []) with
  | .obj tkvs => do
    let e1 ← match Py.lookupKey tkvs "font-size" with
      | some fs => do
        let items ← Py.pyItems fs
        fsItems items
      | none => pure []
    let e2 ← match Py.lookupKey tkvs "font-weight" with
      | some fw => do
        let items ← Py.pyItems fw
        fwItems items
      | none => pure []
    pure (e1 ++ e2)
  | .str s =>
    if Py.occursIn "font-size" s then .error .typeError
    else if Py.occursIn "font-weight" s then .error .typeError
    else .ok []
  | .arr xs =>
    if xs.any (fun x => Py.Json.eqStr x "font-size") then .error .typeError
    else if xs.any (fun x => Py.Json.eqStr x "font-weight") then .error .typeError
    else .ok []
  | _ => .error .typeError

/-- The shared loop body of the spacing and borderRadius passes (the source
duplicates this loop verbatim; `sec` is the message head). -/
def dimItems (sec : String) : PyDict → Except PyErr (List String)
  | [] => .ok []
  | (name, token) :: rest => do
    let here ← match token with
      | .obj t =>
        match Py.lookupKey t "value" with
        | some (.str s) =>
          pure (if Py.pxMatch s then []
            else [sec ++ ("." ++ name ++ ": value '" ++ s ++ "' should be in px")])
        | some _ => (.error .typeError : Except PyErr (List String))
        | none => pure []
      | _ => pure []
    let more ← dimItems sec rest
    pure (here ++ more)

/-- The spacing pass of `validate`. -/
def spacingErrs (data : PyDict) : Except PyErr (List String) := do
  let items ← Py.pyItems ((Py.lookupKey data "spacing").getD (.obj []))
  dimItems "spacing" items

/-- The borderRadius pass of `validate`. -/
def radiusErrs (data : PyDict) : Except PyErr (List String) := do
  let items ← Py.pyItems ((Py.lookupKey data "borderRadius").getD (.obj []))
  dimItems "borderRadius" items

/-- The per-token body of the shadow loop: only the `type` field is
inspected; the value is never examined. -/
def shadowItem (name : String) (token : Json) : List String :=
  match token with
  | .obj t =>
    match Py.lookupKey t "type" with
    | some ty =>
      if Py.Json.eqStr ty "shadow" then []
      else ["shadow." ++ (name ++ ": type should be 'shadow', got '" ++ Py.pyStrJson ty ++ "'")]
    | none => []
  | _ => []

/-- The shadow-section loop. -/
def shadowItems : PyDict → List String
  | [] => []
  | (name, token) :: rest => shadowItem name token ++ shadowItems rest

/-- The shadow pass of `validate`. -/
def shadowErrs (data : PyDict) : Except PyErr (List String) := do
  let items ← Py.pyItems ((Py.lookupKey data "shadow").getD (.obj []))
  pure (shadowItems items)

/-- `_collect_token_paths`: the set of dotted paths of objects having both
`value` and `type` keys, reached outside `meta`/`components` (the skip
applies at every nesting level, as in the source). -/
def collect_token_paths (pre : String) : PyDict → List String
  | [] => []
  | (k, v) :: rest =>
    (if k = "meta" || k = "components" then []
     else
       match v with
       | .obj sub =>
         let cur := if pre = "" then k else pre ++ "." ++ k
         if Py.hasKey sub "value" && Py.hasKey sub "type" then [cur]
         else collect_token_paths cur sub
       | _ => []) ++ collect_token_paths pre rest
termination_by kvs => sizeOf kvs
decreasing_by
  all_goals simp
  all_goals omega

/-- The scan of `TOKEN_REF_RE.findall` (`TOKEN_REF_RE = \{[\w.-]+\}`):
state carries the candidate body since the last viable `'{'`.  A character
outside `[\w.-]` aborts the candidate (restarting one if it is itself
`'{'`), since no position inside the body can start a match. -/
def findScan : Option (List Char) → List Char → List (List Char)
  | _, [] => []
  | none, c :: cs =>
    if c = '{' then findScan (some []) cs else findScan none cs
  | some body, c :: cs =>
    if c = '}' then
      if body = [] then findScan none cs
      else ('{' :: body ++ ['}']) :: findScan none cs
    else if Py.isRefChar c then findScan (some (body ++ [c])) cs
    else if c = '{' then findScan (some []) cs
    else findScan none cs

/-- `TOKEN_REF_RE.findall(value)`: the matched `{path}` substrings. -/
def findRefs (s : String) : List String :=
  (findScan none s.data).map String.mk

/-- The error message for a dangling component reference. -/
def refMsg (comp prop ref : String) : String :=
  "components." ++ (comp ++ "." ++ prop ++ ": reference '" ++ ref ++ "' not found in tokens")

/-- The innermost loop of the component pass: each found reference whose
stripped path is not a collected token path yields one error. -/
def refItems (all : List String) (comp prop : String) : List String → List String
  | [] => []
  | r :: rs =>
    (if all.contains (Py.pyStripBraces r) then [] else [refMsg comp prop r]) ++
      refItems all comp prop rs

/-- The per-component property loop (non-string values are skipped). -/
def propItems (all : List String) (comp : String) : PyDict → List String
  | [] => []
  | (prop, v) :: rest =>
    (match v with
     | .str s => refItems all comp prop (findRefs s)
     | _ => []) ++ propItems all comp rest

/-- The component loop (non-dict components are skipped). -/
def compItems (all : List String) : PyDict → List String
  | [] => []
  | (cn, cv) :: rest =>
    (match cv with
     | .obj props => propItems all cn props
     | _ => []) ++ compItems all rest

/-- The component-references pass of `validate`. -/
def componentErrs (data : PyDict) : Except PyErr (List String) := do
  let items ← Py.pyItems ((Py.lookupKey data "components").getD (.obj []))
  pure (compItems (collect_token_paths "" data) items)

/-- `validate`: the eight checks in source order, appending into one error
list; an uncaught exception in any pass aborts the whole call. -/
def validate (data : PyDict) : Except PyErr (List String) := do
  let e2 ← metaErrs data
  let e3 ← colorErrs data
  let e4 ← typoErrs data
  let e5 ← spacingErrs data
  let e6 ← radiusErrs data
  let e7 ← shadowErrs data
  let e8 ← componentErrs data
  pure (sectionErrs data ++ e2 ++ e3 ++ e4 ++ e5 ++ e6 ++ e7 ++ e8)

end ValidateTokens

namespace ValidateTokens

/-- Token values are strings wherever a regex check would read them. -/
def strValuesOk (kvs : PyDict) : Bool :=
  kvs.all (fun p =>
    match p.2 with
    | .obj t =>
      match Py.lookupKey t "value" with
      | some (.str _) => true
      | some _ => false
      | none => true
    | _ => true)

/-- Font-weight values are of a type `int(...)` accepts or rejects with
`ValueError` (string, int, float or bool). -/
def intableValuesOk (kvs : PyDict) : Bool :=
  kvs.all (fun p =>
    match p.2 with
    | .obj t =>
      match Py.lookupKey t "value" with
      | some (.str _) => true
      | some (.int _) => true
      | some (.float _) => true
      | some (.bool _) => true
      | some _ => false
      | none => true
    | _ => true)

/-- The section under `k` is absent or an object with string token values. -/
def secStrOk (data : PyDict) (k : String) : Bool :=
  match Py.lookupKey data k with
  | none => true
  | some (.obj kvs) => strValuesOk kvs
  | some _ => false

/-- The section under `k` is absent or an object. -/
def dictOrAbsent (data : PyDict) (k : String) : Bool :=
  match Py.lookupKey data k with
  | none => true
  | some (.obj _) => true
  | some _ => false

/-- The `meta` value is absent or a container (`in` raises on numbers). -/
def metaOk (data : PyDict) : Bool :=
  match Py.lookupKey data "meta" with
  | none => true
  | some (.obj _) => true
  | some (.str _) => true
  | some (.arr _) => true
  | some _ => false

/-- The `typography` section is absent or an object whose `font-size` /
`font-weight` groups, when present, are objects with checkable values. -/
def typoOk (data : PyDict) : Bool :=
  match Py.lookupKey data "typography" with
  | none => true
  | some (.obj tkvs) =>
    (match Py.lookupKey tkvs "font-size" with
     | none => true
     | some (.obj g) => strValuesOk g
     | some _ => false) &&
    (match Py.lookupKey tkvs "font-weight" with
     | none => true
     | some (.obj g) => intableValuesOk g
     | some _ => false)
  | some _ => false

/-- The shape conditions under which no check of `validate` can raise:
every iterated section is an object where present and every inspected token
value has a type its check accepts. -/
def wellShaped (data : PyDict) : Bool :=
  metaOk data && secStrOk data "color" && typoOk data &&
    secStrOk data "spacing" && secStrOk data "borderRadius" &&
    dictOrAbsent data "shadow" && dictOrAbsent data "components"

/-- The `{path}` reference occurrences of a components dict:
(component, property, matched reference text). -/
def refOccsProps (comp : String) : PyDict → List (String × String × String)
  | [] => []
  | (prop, v) :: rest =>
    (match v with
     | .str s => (findRefs s).map (fun r => (comp, prop, r))
     | _ => []) ++ refOccsProps comp rest

/-- All reference occurrences of a components dict, in iteration order. -/
def refOccs : PyDict → List (String × String × String)
  | [] => []
  | (cn, cv) :: rest =>
    (match cv with
     | .obj props => refOccsProps cn props
     | _ => []) ++ refOccs rest

/-- The claim-side description of the component pass output: one
"reference not found" error for exactly the occurrences whose stripped
path is not a collected token path. -/
def refErrsOf (data : PyDict) (comps : PyDict) : List String :=
  ((refOccs comps).filter
    (fun t => !(collect_token_paths "" data).contains (Py.pyStripBraces t.2.2))).map
    (fun t => refMsg t.1 t.2.1 t.2.2)

/-- The claim-side font-weight acceptance condition: the value parses as an
integer in `[100, 900]` divisible by 100. -/
def fwAccept (v : String) : Bool :=
  match Py.pyIntOfStr v with
  | some w => decide (100 ≤ w) && decide (w ≤ 900) && decide (w % 100 = 0)
  | none => false

/-- The expected font-weight check output for a one-token document. -/
def fwCheck (v : String) : List String :=
  match Py.pyIntOfStr v with
  | some w =>
    if w < 100 || 900 < w || w % 100 ≠ 0 then
      ["typography." ++ ("font-weight." ++ "w" ++ ": value '" ++ v ++
        "' should be 100-900 in increments of 100")]
    else []
  | none =>
    ["typography." ++ ("font-weight." ++ "w" ++ ": value '" ++ v ++ "' should be numeric")]

/-- A complete meta object. -/
def fullMeta : Json :=
  .obj [("name", .str "Demo"), ("source", .str "demo.example"),
        ("version", .str "1.0.0"), ("generated", .str "2026-01-01")]

/-- An otherwise-valid document whose single font-weight token carries the
given value string. -/
def fwDoc (v : String) : PyDict :=
  [("meta", fullMeta),
   ("color", .obj []),
   ("typography", .obj [("font-weight", .obj [("w", .obj
      [("value", .str v), ("type", .str "fontWeight")])])]),
   ("spacing", .obj []),
   ("borderRadius", .obj []),
   ("shadow", .obj [])]

/-- An otherwise-valid document whose single shadow token carries the given
value string and `type` field. -/
def shDoc (v : String) (ty : Json) : PyDict :=
  [("meta", fullMeta),
   ("color", .obj []),
   ("typography", .obj []),
   ("spacing", .obj []),
   ("borderRadius", .obj []),
   ("shadow", .obj [("s", .obj [("value", .str v), ("type", ty)])])]

/-- A document whose color token value is the integer `5`:
`HEX_RE.match(5)` raises `TypeError`. -/
def c3badDoc : PyDict :=
  [("color", .obj [("primary", .obj [("value", .int 5), ("type", .str "color")])])]

/-- A well-shaped document with violations in several distinct checks. -/
def c3demoDoc : PyDict :=
  [("color", .obj [("primary", .obj [("value", .str "red")])])]

/-- A valid document with one resolvable and one dangling component
reference. -/
def c4doc : PyDict :=
  [("meta", fullMeta),
   ("color", .obj [("primary", .obj [("value", .str "#FF0000"), ("type", .str "color")])]),
   ("typography", .obj []),
   ("spacing", .obj []),
   ("borderRadius", .obj []),
   ("shadow", .obj []),
   ("components", .obj [("button", .obj
      [("background", .str "\x7bcolor.primary\x7d"),
       ("border", .str "1px solid \x7bcolor.missing\x7d")])])]

/-- The components dict of `c4doc`. -/
def c4comps : PyDict :=
  [("button", .obj
    [("background", .str "\x7bcolor.primary\x7d"),
     ("border", .str "1px solid \x7bcolor.missing\x7d")])]

/-- A document with every required section except `borderRadius`. -/
def c9doc : PyDict :=
  [("meta", fullMeta),
   ("color", .obj []),
   ("typography", .obj []),
   ("spacing", .obj []),
   ("shadow", .obj [])]

/-- A document without `borderRadius` whose color value makes `validate`
raise before the section error could be returned. -/
def c9badDoc : PyDict :=
  [("color", .obj [("primary", .obj [("value", .int 5), ("type", .str "color")])])]

/-- A document with a dangling component reference whose color value makes
`validate` raise before the reference error could be returned. -/
def c4badDoc : PyDict :=
  [("color", .obj [("primary", .obj [("value", .int 5), ("type", .str "color")])]),
   ("components", .obj [("button", .obj [("background", .str "\x7bmissing.x\x7d")])])]

end ValidateTokens

namespace GenerateCss

/-- The minimal document of claim C1: one color token, one spacing token,
all other required sections present and empty. -/
def cssMinDoc : PyDict :=
  [("meta", .obj []),
   ("color", .obj [("primary", .obj [("value", .str "#FF0000"), ("type", .str "color")])]),
   ("typography", .obj []),
   ("spacing", .obj [("4", .obj [("value", .str "16px"), ("type", .str "dimension")])]),
   ("borderRadius", .obj []),
   ("shadow", .obj [])]

end GenerateCss

/-- C10: the Kotlin backend's `px_to_dp` and the Swift backend's
`px_to_cgfloat` are extensionally equal: same pass-through on non-px input
and same integer-versus-decimal formatting of the magnitude. -/
theorem c10_px_conversions_agree :
    ∀ s : String, GenerateKotlin.px_to_dp s = GenerateSwift.px_to_cgfloat s := by
  intro s
  unfold GenerateKotlin.px_to_dp GenerateSwift.px_to_cgfloat
  cases Py.pxParse s <;> rfl

/-- C2: the web rem conversion is exact on the claimed points
(`16px → 1rem`, `24px → 1.5rem`, `0px → 0`, `"0" → "0"` through
`convert_value`, `9999px` sentinel untouched) and returns every
non-`<number>px` input unchanged (total function: never raises). -/
theorem c2_px_to_rem_exactness :
    GenerateCss.px_to_rem "16px" = "1rem" ∧
    GenerateCss.px_to_rem "24px" = "1.5rem" ∧
    GenerateCss.px_to_rem "0px" = "0" ∧
    GenerateCss.convert_value (.str "0") (.str "dimension") = .ok (.str "0") ∧
    GenerateCss.px_to_rem "9999px" = "9999px" ∧
    ∀ s : String, Py.pxParse s = none → GenerateCss.px_to_rem s = s := by
  refine ⟨by decide, by decide, by decide, rfl, by decide, ?_⟩
  intro s h
  unfold GenerateCss.px_to_rem
  rw [h]

/-- Witness for C2: the pass-through conjunct applied at `"16 px"`. -/
theorem c2_px_to_rem_exactness_witness :
    Py.pxParse "16 px" = none ∧ GenerateCss.px_to_rem "16 px" = "16 px" :=
  ⟨by decide, c2_px_to_rem_exactness.2.2.2.2.2 "16 px" (by decide)⟩

/-- A hex digit is not `'#'`. -/
theorem isHexDig_ne_hash {c : Char} (h : Py.isHexDig c = true) : ¬c = '#' := by
  intro hc
  subst hc
  exact absurd h (by decide)

/-- `lstrip("#")` on `"#" ++ d` yields `d` when `d` is made of hex digits. -/
theorem lstripHash_hash_append (d : String) (h : ∀ c ∈ d.data, Py.isHexDig c = true) :
    Py.lstripHash ("#" ++ d) = d := by
  unfold Py.lstripHash
  rw [show ("#" ++ d).data = '#' :: d.data from rfl]
  cases h1 : d.data with
  | nil =>
    conv_rhs => rw [show d = String.mk d.data from rfl]
    rw [h1]
    rfl
  | cons c rest =>
    have hc := isHexDig_ne_hash (h c (by rw [h1]; exact List.mem_cons_self c rest))
    conv_rhs => rw [show d = String.mk d.data from rfl]
    rw [h1]
    simp [List.dropWhile_cons, hc]

/-- C8: for a 6-hex-digit payload, the Compose color path emits `0xFF`
followed by the digits uppercased, and the Android XML color path emits
`#FF` followed by the digits uppercased — the six digits reappear
unchanged in both backends. -/
theorem c8_hex_color_round_trip (d : String)
    (h : d.length = 6 ∧ ∀ c ∈ d.data, Py.isHexDig c = true) :
    GenerateKotlin.hex_to_argb ("#" ++ d) = "0xFF" ++ Py.upperStr d ∧
    (∀ n : String, GenerateKotlin.xml_color_line n ("#" ++ d) =
      "    <color name=\"" ++ n ++ "\">#FF" ++ Py.upperStr d ++ "</color>") ∧
    GenerateKotlin.hex_to_argb "#1A2B3C" = "0xFF1A2B3C" := by
  have hl := lstripHash_hash_append d h.2
  refine ⟨?_, ?_, by decide⟩
  · unfold GenerateKotlin.hex_to_argb
    rw [hl]
  · intro n
    unfold GenerateKotlin.xml_color_line
    rw [hl]

/-- Witness for C8 at the concrete digits `1A2B3C`. -/
theorem c8_hex_color_round_trip_witness :
    ("1A2B3C".length = 6 ∧ ∀ c ∈ "1A2B3C".data, Py.isHexDig c = true) ∧
    GenerateKotlin.hex_to_argb ("#" ++ "1A2B3C") = "0xFF" ++ Py.upperStr "1A2B3C" :=
  ⟨⟨by decide, by decide⟩, (c8_hex_color_round_trip "1A2B3C" ⟨by decide, by decide⟩).1⟩

/-- C1: on the minimal document (one color token `#FF0000`, one spacing
token `16px`, other required sections empty), `generate_css` emits a
`:root` block whose declaration `--color-primary: #FF0000;` sits directly
under the `/* Colors */` header and `--space-4: 1rem;` directly under the
`/* Spacing */` header, the token-bearing groups appearing in the
canonical section order (sections without tokens emit no group). -/
theorem c1_generate_css_minimal_doc (today : String) :
    ∃ hdr, GenerateCss.generate_header (.obj []) "css" today = .ok hdr ∧
      GenerateCss.generate_css_lines GenerateCss.cssMinDoc today = .ok
        [hdr, "", ":root \x7b", "  /* Colors */", "  --color-primary: #FF0000;", "",
         "  /* Spacing */", "  --space-4: 1rem;", "\x7d", ""] ∧
      GenerateCss.generate_css GenerateCss.cssMinDoc today = .ok ("\n".intercalate
        [hdr, "", ":root \x7b", "  /* Colors */", "  --color-primary: #FF0000;", "",
         "  /* Spacing */", "  --space-4: 1rem;", "\x7d", ""]) :=
  ⟨_, rfl, rfl, rfl⟩

/-- `Except.ok` bind reduction (shared by the validator proofs). -/
theorem okBind {α β : Type} (a : α) (f : α → Except PyErr β) :
    (Except.ok a >>= f) = f a := rfl

/-- `Except.error` bind reduction (shared by the validator proofs). -/
theorem errBind {α β : Type} (e : PyErr) (f : α → Except PyErr β) :
    ((Except.error e : Except PyErr α) >>= f) = Except.error e := rfl

/-- The font-weight loop on the single symbolic-value token of `fwDoc`. -/
theorem fwItems_single (v : String) :
    ValidateTokens.fwItems [("w", .obj [("value", .str v), ("type", .str "fontWeight")])] =
      .ok (ValidateTokens.fwCheck v) := by
  cases hv : Py.pyIntOfStr v <;>
    simp [ValidateTokens.fwItems, ValidateTokens.fwCheck, Py.pyIntEx, Py.lookupKey,
      List.lookup, Py.pyStrJson, hv]

/-- The typography pass of `validate` on `fwDoc v`. -/
theorem typoErrs_fwDoc (v : String) :
    ValidateTokens.typoErrs (ValidateTokens.fwDoc v) = .ok (ValidateTokens.fwCheck v) := by
  have h := fwItems_single v
  simp [ValidateTokens.typoErrs, ValidateTokens.fwDoc, ValidateTokens.fullMeta,
    Py.lookupKey, List.lookup, Py.pyItems, h, okBind]

/-- `validate` on `fwDoc v` reduces to the font-weight check. -/
theorem validate_fwDoc (v : String) :
    ValidateTokens.validate (ValidateTokens.fwDoc v) = .ok (ValidateTokens.fwCheck v) := by
  have h := typoErrs_fwDoc v
  simp [ValidateTokens.validate, h,
    show ValidateTokens.sectionErrs (ValidateTokens.fwDoc v) = [] from rfl,
    show ValidateTokens.metaErrs (ValidateTokens.fwDoc v) = .ok [] from rfl,
    show ValidateTokens.colorErrs (ValidateTokens.fwDoc v) = .ok [] from rfl,
    show ValidateTokens.spacingErrs (ValidateTokens.fwDoc v) = .ok [] from rfl,
    show ValidateTokens.radiusErrs (ValidateTokens.fwDoc v) = .ok [] from rfl,
    show ValidateTokens.shadowErrs (ValidateTokens.fwDoc v) = .ok [] from rfl,
    show ValidateTokens.componentErrs (ValidateTokens.fwDoc v) = .ok [] from rfl, okBind]

/-- C6: on an otherwise-valid document whose font-weight token carries
value `v`, `validate` reports no error exactly when `v` parses as an
integer in `[100, 900]` divisible by 100; `100` and `900` pass, `950`
draws the range/increment error, `abc` the should-be-numeric error. -/
theorem c6_font_weight_check :
    (∀ v : String,
      ValidateTokens.validate (ValidateTokens.fwDoc v) = .ok (ValidateTokens.fwCheck v)) ∧
    (∀ v : String,
      ValidateTokens.validate (ValidateTokens.fwDoc v) = .ok [] ↔
        ValidateTokens.fwAccept v = true) ∧
    ValidateTokens.validate (ValidateTokens.fwDoc "100") = .ok [] ∧
    ValidateTokens.validate (ValidateTokens.fwDoc "900") = .ok [] ∧
    ValidateTokens.validate (ValidateTokens.fwDoc "950") =
      .ok ["typography.font-weight.w: value '950' should be 100-900 in increments of 100"] ∧
    ValidateTokens.validate (ValidateTokens.fwDoc "abc") =
      .ok ["typography.font-weight.w: value 'abc' should be numeric"] := by
  refine ⟨validate_fwDoc, ?_, rfl, rfl, rfl, rfl⟩
  intro v
  rw [validate_fwDoc v]
  cases hv : Py.pyIntOfStr v <;>
    simp [ValidateTokens.fwCheck, ValidateTokens.fwAccept, hv]

/-- C5 counterexample: a shadow token whose value `"garbage"` is neither
`none` nor a `SHADOW_RE` match draws no validation error at all —
`validate` never inspects shadow values. -/
theorem c5_shadow_counterexample :
    ValidateTokens.validate (ValidateTokens.shDoc "garbage" (.str "shadow")) = .ok [] ∧
    ValidateTokens.shadowMatch "garbage" = false ∧ "garbage" ≠ "none" :=
  ⟨rfl, rfl, by decide⟩

/-- C5 (amended): on an otherwise-valid document whose shadow token has
value `v` and type field `ty`, `validate` errors exactly when `ty` differs
from `"shadow"` — the value `v` is never examined. -/
theorem c5_shadow_type_only (v : String) (ty : Json) :
    ValidateTokens.validate (ValidateTokens.shDoc v ty) = .ok
      (if Py.Json.eqStr ty "shadow" then []
       else ["shadow." ++ ("s" ++ ": type should be 'shadow', got '" ++ Py.pyStrJson ty ++ "'")]) := by
  have hsh : ValidateTokens.shadowErrs (ValidateTokens.shDoc v ty) = .ok
      (ValidateTokens.shadowItem "s" (.obj [("value", .str v), ("type", ty)]) ++ []) := rfl
  rw [List.append_nil] at hsh
  simp [ValidateTokens.validate, hsh,
    show ValidateTokens.sectionErrs (ValidateTokens.shDoc v ty) = [] from rfl,
    show ValidateTokens.metaErrs (ValidateTokens.shDoc v ty) = .ok [] from rfl,
    show ValidateTokens.colorErrs (ValidateTokens.shDoc v ty) = .ok [] from rfl,
    show ValidateTokens.typoErrs (ValidateTokens.shDoc v ty) = .ok [] from rfl,
    show ValidateTokens.spacingErrs (ValidateTokens.shDoc v ty) = .ok [] from rfl,
    show ValidateTokens.radiusErrs (ValidateTokens.shDoc v ty) = .ok [] from rfl,
    show ValidateTokens.componentErrs (ValidateTokens.shDoc v ty) = .ok [] from rfl,
    ValidateTokens.shadowItem, Py.lookupKey, List.lookup, okBind]

/-- C3 counterexample: a parseable document whose color token value is the
number `5` makes `validate` raise (`HEX_RE.match(5)` is a `TypeError`). -/
theorem c3_validate_raises_counterexample :
    ValidateTokens.validate ValidateTokens.c3badDoc = .error .typeError := rfl

/-- Flattening singleton lists recovers the original list. -/
theorem flatten_map_singleton (l : List Char) : (l.map (fun c => [c])).flatten = l := by
  induction l with
  | nil => rfl
  | cons c cs ih => simp [ih]

/-- The segments of `scanSegs` re-join to the scanned text (with the
pending candidate re-opened). -/
theorem scanSegs_orig (cs : List Char) : ∀ st : Option (List Char),
    ((GenerateCss.scanSegs st cs).map GenerateCss.segOrig).flatten =
      (match st with | none => ([] : List Char) | some body => '{' :: body) ++ cs := by
  induction cs with
  | nil =>
    intro st
    cases st with
    | none => rfl
    | some body =>
      simp [GenerateCss.scanSegs, List.map_map, GenerateCss.segOrig]
      rw [show (GenerateCss.segOrig ∘ GenerateCss.Seg.lit) = (fun c : Char => [c]) from rfl,
        flatten_map_singleton]
  | cons c cs ih =>
    intro st
    cases st with
    | none =>
      by_cases hc : c = '{' <;>
        simp [GenerateCss.scanSegs, hc, ih, GenerateCss.segOrig]
    | some body =>
      by_cases hc : c = '}'
      · by_cases hb : body = [] <;>
          simp [GenerateCss.scanSegs, hc, hb, ih, GenerateCss.segOrig]
      · simp [GenerateCss.scanSegs, hc, ih (some (body ++ [c])), GenerateCss.segOrig]

/-- `subScan` renders exactly the segments of `scanSegs`. -/
theorem subScan_render (token_map : List (String × String)) (cs : List Char) :
    ∀ st : Option (List Char),
      GenerateCss.subScan token_map st cs =
        ((GenerateCss.scanSegs st cs).map (GenerateCss.segRes token_map)).flatten := by
  induction cs with
  | nil =>
    intro st
    cases st with
    | none => rfl
    | some body =>
      simp [GenerateCss.scanSegs, GenerateCss.subScan, List.map_map, GenerateCss.segRes]
      rw [show (GenerateCss.segRes token_map ∘ GenerateCss.Seg.lit) = (fun c : Char => [c]) from rfl,
        flatten_map_singleton]
  | cons c cs ih =>
    intro st
    cases st with
    | none =>
      by_cases hc : c = '{' <;>
        simp [GenerateCss.scanSegs, GenerateCss.subScan, hc, ih, GenerateCss.segRes]
    | some body =>
      by_cases hc : c = '}'
      · by_cases hb : body = [] <;>
          simp [GenerateCss.scanSegs, GenerateCss.subScan, hc, hb, ih, GenerateCss.segRes]
      · simp [GenerateCss.scanSegs, GenerateCss.subScan, hc, ih (some (body ++ [c]))]

/-- Every segment produced by `scanSegs` is well-formed, given the pending
candidate contains no `'}'`. -/
theorem scanSegs_wf (cs : List Char) : ∀ st : Option (List Char),
    (∀ b, st = some b → '}' ∉ b) →
    ∀ s ∈ GenerateCss.scanSegs st cs, GenerateCss.segWF s := by
  induction cs with
  | nil =>
    intro st hst s hs
    cases st with
    | none => simp [GenerateCss.scanSegs] at hs
    | some body =>
      simp [GenerateCss.scanSegs] at hs
      rcases hs with rfl | ⟨a, _, rfl⟩ <;> trivial
  | cons c cs ih =>
    intro st hst s hs
    cases st with
    | none =>
      by_cases hc : c = '{' <;> simp [GenerateCss.scanSegs, hc] at hs
      · exact ih (some []) (by intro b hb; cases hb; simp) s hs
      · rcases hs with rfl | hs
        · trivial
        · exact ih none (by intro b hb; cases hb) s hs
    | some body =>
      by_cases hc : c = '}'
      · by_cases hb : body = [] <;> simp [GenerateCss.scanSegs, hc, hb] at hs
        · rcases hs with rfl | rfl | hs
          · trivial
          · trivial
          · exact ih none (by intro b h; cases h) s hs
        · rcases hs with rfl | hs
          · exact ⟨hb, hst body rfl⟩
          · exact ih none (by intro b h; cases h) s hs
      · simp [GenerateCss.scanSegs, hc] at hs
        refine ih (some (body ++ [c])) ?_ s hs
        intro b hb
        cases hb
        simp [List.mem_append]
        exact ⟨hst body rfl, fun h => hc h.symm⟩

/-- C7: `resolve_token_ref` decomposes its input into literal text and
`{path}` spans; each span whose path is in the token map is replaced by the
mapped variable reference, each span whose path is absent is reproduced
verbatim (`lookupRepl` falls back to the whole match), and all literal text
is copied unchanged. -/
theorem c7_resolve_token_ref_segments (value : String) (token_map : List (String × String)) :
    ((GenerateCss.parseSegs value.data).map GenerateCss.segOrig).flatten = value.data ∧
    (GenerateCss.resolve_token_ref value token_map).data =
      ((GenerateCss.parseSegs value.data).map (GenerateCss.segRes token_map)).flatten ∧
    ∀ s ∈ GenerateCss.parseSegs value.data, GenerateCss.segWF s := by
  refine ⟨?_, ?_, ?_⟩
  · simpa using scanSegs_orig value.data none
  · exact subScan_render token_map value.data none
  · exact scanSegs_wf value.data none (by intro b hb; cases hb)

/-- Witness for C7: the reference span scanned out of `"{x}"` is a
well-formed segment. -/
theorem c7_resolve_token_ref_segments_witness :
    GenerateCss.segWF (GenerateCss.Seg.ref ['x']) :=
  (c7_resolve_token_ref_segments "\x7bx\x7d" []).2.2 (GenerateCss.Seg.ref ['x']) (by decide)

/-- A run of `validate` that returns normally decomposes into the outputs
of its eight checks, concatenated in source order. -/
theorem validate_ok_decomp (data : PyDict) (errs : List String)
    (h : ValidateTokens.validate data = .ok errs) :
    ∃ l2 l3 l4 l5 l6 l7 l8,
      ValidateTokens.metaErrs data = .ok l2 ∧
      ValidateTokens.colorErrs data = .ok l3 ∧
      ValidateTokens.typoErrs data = .ok l4 ∧
      ValidateTokens.spacingErrs data = .ok l5 ∧
      ValidateTokens.radiusErrs data = .ok l6 ∧
      ValidateTokens.shadowErrs data = .ok l7 ∧
      ValidateTokens.componentErrs data = .ok l8 ∧
      errs = ValidateTokens.sectionErrs data ++ l2 ++ l3 ++ l4 ++ l5 ++ l6 ++ l7 ++ l8 := by
  unfold ValidateTokens.validate at h
  cases h2 : ValidateTokens.metaErrs data <;> rw [h2] at h
  · rw [errBind] at h; exact Except.noConfusion h
  rw [okBind] at h
  cases h3 : ValidateTokens.colorErrs data <;> rw [h3] at h
  · rw [errBind] at h; exact Except.noConfusion h
  rw [okBind] at h
  cases h4 : ValidateTokens.typoErrs data <;> rw [h4] at h
  · rw [errBind] at h; exact Except.noConfusion h
  rw [okBind] at h
  cases h5 : ValidateTokens.spacingErrs data <;> rw [h5] at h
  · rw [errBind] at h; exact Except.noConfusion h
  rw [okBind] at h
  cases h6 : ValidateTokens.radiusErrs data <;> rw [h6] at h
  · rw [errBind] at h; exact Except.noConfusion h
  rw [okBind] at h
  cases h7 : ValidateTokens.shadowErrs data <;> rw [h7] at h
  · rw [errBind] at h; exact Except.noConfusion h
  rw [okBind] at h
  cases h8 : ValidateTokens.componentErrs data <;> rw [h8] at h
  · rw [errBind] at h; exact Except.noConfusion h
  rw [okBind] at h
  simp only [pure, Except.pure, Except.ok.injEq] at h
  exact ⟨_, _, _, _, _, _, _, rfl, rfl, rfl, rfl, rfl, rfl, rfl, h.symm⟩

/-- `pure` bind reduction (shared by the validator proofs). -/
theorem pureBind {α β : Type} (a : α) (f : α → Except PyErr β) :
    ((pure a : Except PyErr α) >>= f) = f a := rfl

/-- Every color-token error message starts with `color.`. -/
theorem colorItem_shape (name : String) (token : Json) (l : List String)
    (h : ValidateTokens.colorItem name token = .ok l) :
    ∀ m ∈ l, ∃ t, m = "color." ++ t := by
  intro m hm
  cases token <;> simp only [ValidateTokens.colorItem] at h <;>
    try (injection h with h; subst h; rcases List.mem_singleton.1 hm with rfl; exact ⟨_, rfl⟩)
  repeat' first
    | split at h
    | simp only [pureBind, okBind, errBind] at h
  all_goals first
    | exact Except.noConfusion h
    | (injection h with h; subst h
       simp only [List.mem_append, List.mem_singleton, List.mem_cons, List.not_mem_nil,
         or_false, false_or, List.nil_append, List.append_nil] at hm
       first
         | (rcases hm with rfl | rfl <;> exact ⟨_, rfl⟩)
         | (obtain rfl := hm; exact ⟨_, rfl⟩))
    | (injection h with h; subst h
       simp only [List.mem_append, List.mem_singleton, List.mem_cons, List.not_mem_nil,
         or_false, false_or, List.nil_append, List.append_nil] at hm)

/-- Shape of the whole color loop's output. -/
theorem colorItems_shape (kvs : PyDict) (l : List String)
    (h : ValidateTokens.colorItems kvs = .ok l) :
    ∀ m ∈ l, ∃ t, m = "color." ++ t := by
  induction kvs generalizing l with
  | nil =>
    injection h with h; subst h
    intro m hm
    exact absurd hm (List.not_mem_nil m)
  | cons kv rest ih =>
    obtain ⟨name, token⟩ := kv
    simp only [ValidateTokens.colorItems] at h
    cases hi : ValidateTokens.colorItem name token <;> rw [hi] at h <;>
      simp only [okBind, errBind] at h
    · exact Except.noConfusion h
    · cases hr : ValidateTokens.colorItems rest <;> rw [hr] at h <;>
        simp only [okBind, errBind, pureBind] at h
      · exact Except.noConfusion h
      · injection h with h; subst h
        intro m hm
        rcases List.mem_append.1 hm with hm | hm
        · exact colorItem_shape name token _ hi m hm
        · exact ih _ hr m hm

/-- Shape of the color pass's output. -/
theorem colorErrs_shape (data : PyDict) (l : List String)
    (h : ValidateTokens.colorErrs data = .ok l) :
    ∀ m ∈ l, ∃ t, m = "color." ++ t := by
  unfold ValidateTokens.colorErrs at h
  cases hj : (Py.lookupKey data "color").getD (.obj []) <;> rw [hj] at h <;>
    simp only [Py.pyItems, okBind, errBind] at h
  all_goals first
    | exact Except.noConfusion h
    | exact colorItems_shape _ _ h

/-- Every font-size error message starts with `typography.`. -/
theorem fsItems_shape (kvs : PyDict) (l : List String)
    (h : ValidateTokens.fsItems kvs = .ok l) :
    ∀ m ∈ l, ∃ t, m = "typography." ++ t := by
  induction kvs generalizing l with
  | nil =>
    injection h with h; subst h
    intro m hm
    exact absurd hm (List.not_mem_nil m)
  | cons kv rest ih =>
    obtain ⟨name, token⟩ := kv
    simp only [ValidateTokens.fsItems] at h
    repeat' first
      | split at h
      | simp only [pureBind, okBind, errBind] at h
    all_goals first
      | exact Except.noConfusion h
      | (cases hr : ValidateTokens.fsItems rest <;> rw [hr] at h <;>
          simp only [okBind, errBind, pureBind] at h
         all_goals first
           | exact Except.noConfusion h
           | (injection h with h; subst h
              intro m hm
              rcases List.mem_append.1 hm with hm | hm
              · first
                  | (simp only [List.mem_singleton, List.not_mem_nil] at hm
                     obtain rfl := hm
                     exact ⟨_, rfl⟩)
                  | simp only [List.mem_singleton, List.not_mem_nil] at hm
              · exact ih _ hr m hm))

/-- Every font-weight error message starts with `typography.`. -/
theorem fwItems_shape (kvs : PyDict) (l : List String)
    (h : ValidateTokens.fwItems kvs = .ok l) :
    ∀ m ∈ l, ∃ t, m = "typography." ++ t := by
  induction kvs generalizing l with
  | nil =>
    injection h with h; subst h
    intro m hm
    exact absurd hm (List.not_mem_nil m)
  | cons kv rest ih =>
    obtain ⟨name, token⟩ := kv
    simp only [ValidateTokens.fwItems] at h
    repeat' first
      | split at h
      | simp only [pureBind, okBind, errBind] at h
    all_goals first
      | exact Except.noConfusion h
      | (cases hr : ValidateTokens.fwItems rest <;> rw [hr] at h <;>
          simp only [okBind, errBind, pureBind] at h
         all_goals first
           | exact Except.noConfusion h
           | (injection h with h; subst h
              intro m hm
              rcases List.mem_append.1 hm with hm | hm
              · first
                  | (simp only [List.mem_singleton, List.not_mem_nil] at hm
                     obtain rfl := hm
                     exact ⟨_, rfl⟩)
                  | simp only [List.mem_singleton, List.not_mem_nil] at hm
              · exact ih _ hr m hm))

/-- Every spacing/borderRadius error message starts with its section head. -/
theorem dimItems_shape (sec : String) (kvs : PyDict) (l : List String)
    (h : ValidateTokens.dimItems sec kvs = .ok l) :
    ∀ m ∈ l, ∃ t, m = sec ++ t := by
  induction kvs generalizing l with
  | nil =>
    injection h with h; subst h
    intro m hm
    exact absurd hm (List.not_mem_nil m)
  | cons kv rest ih =>
    obtain ⟨name, token⟩ := kv
    simp only [ValidateTokens.dimItems] at h
    repeat' first
      | split at h
      | simp only [pureBind, okBind, errBind] at h
    all_goals first
      | exact Except.noConfusion h
      | (cases hr : ValidateTokens.dimItems sec rest <;> rw [hr] at h <;>
          simp only [okBind, errBind, pureBind] at h
         all_goals first
           | exact Except.noConfusion h
           | (injection h with h; subst h
              intro m hm
              rcases List.mem_append.1 hm with hm | hm
              · first
                  | (simp only [List.mem_singleton, List.not_mem_nil] at hm
                     obtain rfl := hm
                     exact ⟨_, rfl⟩)
                  | simp only [List.mem_singleton, List.not_mem_nil] at hm
              · exact ih _ hr m hm))

/-- Shape of the typography pass's output. -/
theorem typoErrs_shape (data : PyDict) (l : List String)
    (h : ValidateTokens.typoErrs data = .ok l) :
    ∀ m ∈ l, ∃ t, m = "typography." ++ t := by
  unfold ValidateTokens.typoErrs at h
  cases hj : (Py.lookupKey data "typography").getD (.obj []) <;> rw [hj] at h <;>
    dsimp only at h
  case obj tkvs =>
    cases hfs : Py.lookupKey tkvs "font-size" <;> rw [hfs] at h <;>
      simp only [pureBind, okBind, errBind] at h
    · cases hfw : Py.lookupKey tkvs "font-weight" <;> rw [hfw] at h <;>
        simp only [pureBind, okBind, errBind] at h
      · injection h with h; subst h
        intro m hm
        exact absurd hm (List.not_mem_nil m)
      · rename_i fw
        cases fw <;> simp only [Py.pyItems, okBind, errBind] at h <;>
          try exact Except.noConfusion h
        rename_i g2
        cases hr2 : ValidateTokens.fwItems g2 <;> rw [hr2] at h <;>
          simp only [okBind, errBind, pureBind] at h
        all_goals first
          | exact Except.noConfusion h
          | (injection h with h; subst h
             intro m hm
             simp only [List.nil_append] at hm
             exact fwItems_shape _ _ hr2 m hm)
    · rename_i fs
      cases fs <;> simp only [Py.pyItems, okBind, errBind] at h <;>
        try exact Except.noConfusion h
      rename_i g1
      cases hr1 : ValidateTokens.fsItems g1 <;> rw [hr1] at h <;>
        simp only [okBind, errBind, pureBind] at h
      all_goals try exact Except.noConfusion h
      cases hfw : Py.lookupKey tkvs "font-weight" <;> rw [hfw] at h <;>
        simp only [pureBind, okBind, errBind] at h
      · injection h with h; subst h
        intro m hm
        simp only [List.append_nil] at hm
        exact fsItems_shape _ _ hr1 m hm
      · rename_i fw
        cases fw <;> simp only [Py.pyItems, okBind, errBind] at h <;>
          try exact Except.noConfusion h
        rename_i g2
        cases hr2 : ValidateTokens.fwItems g2 <;> rw [hr2] at h <;>
          simp only [okBind, errBind, pureBind] at h
        all_goals first
          | exact Except.noConfusion h
          | (injection h with h; subst h
             intro m hm
             rcases List.mem_append.1 hm with hm | hm
             · exact fsItems_shape _ _ hr1 m hm
             · exact fwItems_shape _ _ hr2 m hm)
  all_goals
    repeat' first
      | split at h
      | simp only [pureBind, okBind, errBind] at h
  all_goals first
    | exact Except.noConfusion h
    | (injection h with h; subst h
       intro m hm
       exact absurd hm (List.not_mem_nil m))

/-- Shape of the shadow loop's output. -/
theorem shadowItems_shape (kvs : PyDict) :
    ∀ m ∈ ValidateTokens.shadowItems kvs, ∃ t, m = "shadow." ++ t := by
  induction kvs with
  | nil =>
    intro m hm
    exact absurd hm (List.not_mem_nil m)
  | cons kv rest ih =>
    obtain ⟨name, token⟩ := kv
    intro m hm
    simp only [ValidateTokens.shadowItems] at hm
    rcases List.mem_append.1 hm with hm | hm
    · unfold ValidateTokens.shadowItem at hm
      repeat' split at hm
      all_goals simp only [List.mem_singleton, List.not_mem_nil] at hm
      all_goals first
        | (obtain rfl := hm; exact ⟨_, rfl⟩)
        | exact absurd hm not_false
    · exact ih m hm

/-- Shape of the shadow pass's output. -/
theorem shadowErrs_shape (data : PyDict) (l : List String)
    (h : ValidateTokens.shadowErrs data = .ok l) :
    ∀ m ∈ l, ∃ t, m = "shadow." ++ t := by
  unfold ValidateTokens.shadowErrs at h
  cases hj : (Py.lookupKey data "shadow").getD (.obj []) <;> rw [hj] at h <;>
    simp only [Py.pyItems, okBind, errBind, pureBind] at h
  all_goals first
    | exact Except.noConfusion h
    | (injection h with h; subst h; exact shadowItems_shape _)

/-- Shape of the spacing pass's output. -/
theorem spacingErrs_shape (data : PyDict) (l : List String)
    (h : ValidateTokens.spacingErrs data = .ok l) :
    ∀ m ∈ l, ∃ t, m = "spacing" ++ t := by
  unfold ValidateTokens.spacingErrs at h
  cases hj : (Py.lookupKey data "spacing").getD (.obj []) <;> rw [hj] at h <;>
    simp only [Py.pyItems, okBind, errBind] at h
  all_goals first
    | exact Except.noConfusion h
    | exact dimItems_shape _ _ _ h

/-- Shape of the borderRadius pass's output. -/
theorem radiusErrs_shape (data : PyDict) (l : List String)
    (h : ValidateTokens.radiusErrs data = .ok l) :
    ∀ m ∈ l, ∃ t, m = "borderRadius" ++ t := by
  unfold ValidateTokens.radiusErrs at h
  cases hj : (Py.lookupKey data "borderRadius").getD (.obj []) <;> rw [hj] at h <;>
    simp only [Py.pyItems, okBind, errBind] at h
  all_goals first
    | exact Except.noConfusion h
    | exact dimItems_shape _ _ _ h

/-- Every meta error is one of the four concrete meta-field messages. -/
theorem metaErrs_shape (data : PyDict) (l : List String)
    (h : ValidateTokens.metaErrs data = .ok l) :
    ∀ m ∈ l, ∃ f, f ∈ ValidateTokens.REQUIRED_META_FIELDS ∧ m = ValidateTokens.metaMsg f := by
  unfold ValidateTokens.metaErrs at h
  cases hj : (Py.lookupKey data "meta").getD (.obj []) <;> rw [hj] at h <;>
    first
      | exact Except.noConfusion h
      | (injection h with h; subst h
         intro m hm
         simp only [List.mem_map, List.mem_filter] at hm
         obtain ⟨f, ⟨hf, _⟩, rfl⟩ := hm
         exact ⟨f, hf, rfl⟩)

/-- Every reference error starts with `components.`. -/
theorem refItems_shape (all : List String) (comp prop : String) (rs : List String) :
    ∀ m ∈ ValidateTokens.refItems all comp prop rs, ∃ t, m = "components." ++ t := by
  induction rs with
  | nil =>
    intro m hm
    exact absurd hm (List.not_mem_nil m)
  | cons r rest ih =>
    intro m hm
    simp only [ValidateTokens.refItems] at hm
    rcases List.mem_append.1 hm with hm | hm
    · split at hm
      · exact absurd hm (List.not_mem_nil m)
      · obtain rfl := List.mem_singleton.1 hm
        exact ⟨_, rfl⟩
    · exact ih m hm

/-- Shape of the per-component property loop. -/
theorem propItems_shape (all : List String) (comp : String) (props : PyDict) :
    ∀ m ∈ ValidateTokens.propItems all comp props, ∃ t, m = "components." ++ t := by
  induction props with
  | nil =>
    intro m hm
    exact absurd hm (List.not_mem_nil m)
  | cons kv rest ih =>
    obtain ⟨prop, v⟩ := kv
    intro m hm
    simp only [ValidateTokens.propItems] at hm
    rcases List.mem_append.1 hm with hm | hm
    · split at hm
      · exact refItems_shape _ _ _ _ m hm
      · exact absurd hm (List.not_mem_nil m)
    · exact ih m hm

/-- Shape of the component loop. -/
theorem compItems_shape (all : List String) (comps : PyDict) :
    ∀ m ∈ ValidateTokens.compItems all comps, ∃ t, m = "components." ++ t := by
  induction comps with
  | nil =>
    intro m hm
    exact absurd hm (List.not_mem_nil m)
  | cons kv rest ih =>
    obtain ⟨cn, cv⟩ := kv
    intro m hm
    simp only [ValidateTokens.compItems] at hm
    rcases List.mem_append.1 hm with hm | hm
    · split at hm
      · exact propItems_shape _ _ _ m hm
      · exact absurd hm (List.not_mem_nil m)
    · exact ih m hm

/-- Shape of the component pass's output. -/
theorem componentErrs_shape (data : PyDict) (l : List String)
    (h : ValidateTokens.componentErrs data = .ok l) :
    ∀ m ∈ l, ∃ t, m = "components." ++ t := by
  unfold ValidateTokens.componentErrs at h
  cases hj : (Py.lookupKey data "components").getD (.obj []) <;> rw [hj] at h <;>
    simp only [Py.pyItems, okBind, errBind, pureBind] at h
  all_goals first
    | exact Except.noConfusion h
    | (injection h with h; subst h; exact compItems_shape _ _)

/-- A `color.`-headed message is not the missing-borderRadius message. -/
theorem colorPre_ne (t : String) :
    "color." ++ t ≠ "Missing required section: 'borderRadius'" := by
  intro h
  have h1 : ("color." ++ t).data.head? = some 'c' := rfl
  rw [h] at h1
  exact absurd h1 (by decide)

/-- A `typography.`-headed message is not the missing-borderRadius message. -/
theorem typoPre_ne (t : String) :
    "typography." ++ t ≠ "Missing required section: 'borderRadius'" := by
  intro h
  have h1 : ("typography." ++ t).data.head? = some 't' := rfl
  rw [h] at h1
  exact absurd h1 (by decide)

/-- A `spacing`-headed message is not the missing-borderRadius message. -/
theorem spacingPre_ne (t : String) :
    "spacing" ++ t ≠ "Missing required section: 'borderRadius'" := by
  intro h
  have h1 : ("spacing" ++ t).data.head? = some 's' := rfl
  rw [h] at h1
  exact absurd h1 (by decide)

/-- A `borderRadius`-headed token message is not the missing-borderRadius
message. -/
theorem radiusPre_ne (t : String) :
    "borderRadius" ++ t ≠ "Missing required section: 'borderRadius'" := by
  intro h
  have h1 : ("borderRadius" ++ t).data.head? = some 'b' := rfl
  rw [h] at h1
  exact absurd h1 (by decide)

/-- A `shadow.`-headed message is not the missing-borderRadius message. -/
theorem shadowPre_ne (t : String) :
    "shadow." ++ t ≠ "Missing required section: 'borderRadius'" := by
  intro h
  have h1 : ("shadow." ++ t).data.head? = some 's' := rfl
  rw [h] at h1
  exact absurd h1 (by decide)

/-- A `components.`-headed message is not the missing-borderRadius message. -/
theorem compPre_ne (t : String) :
    "components." ++ t ≠ "Missing required section: 'borderRadius'" := by
  intro h
  have h1 : ("components." ++ t).data.head? = some 'c' := rfl
  rw [h] at h1
  exact absurd h1 (by decide)

/-- No meta-field message is the missing-borderRadius message. -/
theorem metaMsg_ne : ∀ f ∈ ValidateTokens.REQUIRED_META_FIELDS,
    ValidateTokens.metaMsg f ≠ "Missing required section: 'borderRadius'" := by
  decide

/-- A list without the target element counts it zero times. -/
theorem count_eq_zero_shape {l : List String} {tgt : String}
    (h : ∀ m ∈ l, m ≠ tgt) : l.count tgt = 0 :=
  List.count_eq_zero.2 (fun hmem => h tgt hmem rfl)

/-- The required-sections check emits the missing-borderRadius message
exactly once when `borderRadius` is absent. -/
theorem sectionErrs_count (data : PyDict) (h : Py.hasKey data "borderRadius" = false) :
    (ValidateTokens.sectionErrs data).count "Missing required section: 'borderRadius'" = 1 := by
  unfold ValidateTokens.sectionErrs ValidateTokens.REQUIRED_SECTIONS
  cases h1 : Py.hasKey data "meta" <;> cases h2 : Py.hasKey data "color" <;>
    cases h3 : Py.hasKey data "typography" <;> cases h4 : Py.hasKey data "spacing" <;>
      cases h5 : Py.hasKey data "shadow" <;>
        (simp only [List.filter, h, h1, h2, h3, h4, h5]; decide)

/-- C9: for every document without a `borderRadius` key on which `validate`
returns normally, the error list contains exactly one
`Missing required section: 'borderRadius'` entry, independently of all
other sections' presence or validity. -/
theorem c9_missing_border_radius (data : PyDict) (errs : List String)
    (hmiss : Py.hasKey data "borderRadius" = false)
    (hok : ValidateTokens.validate data = .ok errs) :
    errs.count "Missing required section: 'borderRadius'" = 1 := by
  obtain ⟨l2, l3, l4, l5, l6, l7, l8, h2, h3, h4, h5, h6, h7, h8, rfl⟩ :=
    validate_ok_decomp data errs hok
  have z2 : l2.count "Missing required section: 'borderRadius'" = 0 :=
    count_eq_zero_shape (fun m hm => by
      obtain ⟨f, hf, rfl⟩ := metaErrs_shape data l2 h2 m hm
      exact metaMsg_ne f hf)
  have z3 : l3.count "Missing required section: 'borderRadius'" = 0 :=
    count_eq_zero_shape (fun m hm => by
      obtain ⟨t, rfl⟩ := colorErrs_shape data l3 h3 m hm
      exact colorPre_ne t)
  have z4 : l4.count "Missing required section: 'borderRadius'" = 0 :=
    count_eq_zero_shape (fun m hm => by
      obtain ⟨t, rfl⟩ := typoErrs_shape data l4 h4 m hm
      exact typoPre_ne t)
  have z5 : l5.count "Missing required section: 'borderRadius'" = 0 :=
    count_eq_zero_shape (fun m hm => by
      obtain ⟨t, rfl⟩ := spacingErrs_shape data l5 h5 m hm
      exact spacingPre_ne t)
  have z6 : l6.count "Missing required section: 'borderRadius'" = 0 :=
    count_eq_zero_shape (fun m hm => by
      obtain ⟨t, rfl⟩ := radiusErrs_shape data l6 h6 m hm
      exact radiusPre_ne t)
  have z7 : l7.count "Missing required section: 'borderRadius'" = 0 :=
    count_eq_zero_shape (fun m hm => by
      obtain ⟨t, rfl⟩ := shadowErrs_shape data l7 h7 m hm
      exact shadowPre_ne t)
  have z8 : l8.count "Missing required section: 'borderRadius'" = 0 :=
    count_eq_zero_shape (fun m hm => by
      obtain ⟨t, rfl⟩ := componentErrs_shape data l8 h8 m hm
      exact compPre_ne t)
  simp [List.count_append, z2, z3, z4, z5, z6, z7, z8, sectionErrs_count data hmiss]

/-- Witness for C9: the concrete document `c9doc` lacks `borderRadius` and
its single error is counted once. -/
theorem c9_missing_border_radius_witness :
    (["Missing required section: 'borderRadius'"].count
      "Missing required section: 'borderRadius'") = 1 :=
  c9_missing_border_radius ValidateTokens.c9doc _ (by decide) rfl

/-- A color token with a string (or absent) value cannot raise. -/
theorem colorItem_ok (name : String) (token : Json)
    (h : (match token with
          | Json.obj t =>
            match Py.lookupKey t "value" with
            | some (.str _) => true
            | some _ => false
            | none => true
          | _ => true) = true) :
    ∃ li, ValidateTokens.colorItem name token = .ok li := by
  cases token <;> try exact ⟨_, rfl⟩
  rename_i t
  dsimp only at h
  simp only [ValidateTokens.colorItem]
  cases hv : Py.lookupKey t "value" <;> rw [hv] at h
  · exact ⟨_, rfl⟩
  · rename_i v
    cases v <;> dsimp only at h <;>
      first
        | exact ⟨_, rfl⟩
        | exact absurd h Bool.false_ne_true

/-- The color loop returns normally on string-valued tokens. -/
theorem colorItems_ok (kvs : PyDict) (h : ValidateTokens.strValuesOk kvs = true) :
    ∃ l, ValidateTokens.colorItems kvs = .ok l := by
  induction kvs with
  | nil => exact ⟨[], rfl⟩
  | cons kv rest ih =>
    obtain ⟨name, token⟩ := kv
    simp only [ValidateTokens.strValuesOk, List.all_cons, Bool.and_eq_true] at h
    obtain ⟨lr, hr⟩ := ih h.2
    obtain ⟨li, hi⟩ := colorItem_ok name token h.1
    refine ⟨li ++ lr, ?_⟩
    simp only [ValidateTokens.colorItems]
    rw [hi, okBind, hr, okBind]
    rfl

/-- The color pass returns normally under the shape conditions. -/
theorem colorErrs_ok (data : PyDict) (h : ValidateTokens.secStrOk data "color" = true) :
    ∃ l, ValidateTokens.colorErrs data = .ok l := by
  unfold ValidateTokens.secStrOk at h
  unfold ValidateTokens.colorErrs
  cases hm : Py.lookupKey data "color" <;> rw [hm] at h
  · exact ⟨_, rfl⟩
  · rename_i j
    cases j <;> dsimp only at h <;> try exact absurd h Bool.false_ne_true
    rename_i kvs
    obtain ⟨l, hl⟩ := colorItems_ok kvs h
    refine ⟨l, ?_⟩
    simp only [Py.pyItems, okBind]
    exact hl

/-- The font-size loop returns normally on string-valued tokens. -/
theorem fsItems_ok (kvs : PyDict) (h : ValidateTokens.strValuesOk kvs = true) :
    ∃ l, ValidateTokens.fsItems kvs = .ok l := by
  induction kvs with
  | nil => exact ⟨[], rfl⟩
  | cons kv rest ih =>
    obtain ⟨name, token⟩ := kv
    simp only [ValidateTokens.strValuesOk, List.all_cons, Bool.and_eq_true] at h
    obtain ⟨lr, hr⟩ := ih h.2
    have h1 := h.1
    simp only [ValidateTokens.fsItems]
    cases token <;> dsimp only at h1 ⊢ <;>
      try (simp only [pureBind]; rw [hr, okBind]; exact ⟨_, rfl⟩)
    rename_i t
    cases hv : Py.lookupKey t "value" <;> rw [hv] at h1
    · simp only [pureBind]; rw [hr, okBind]; exact ⟨_, rfl⟩
    · rename_i v
      cases v <;> dsimp only at h1 <;>
        first
          | (simp only [pureBind]; rw [hr, okBind]; exact ⟨_, rfl⟩)
          | exact absurd h1 Bool.false_ne_true

/-- The spacing/borderRadius loop returns normally on string-valued
tokens. -/
theorem dimItems_ok (sec : String) (kvs : PyDict)
    (h : ValidateTokens.strValuesOk kvs = true) :
    ∃ l, ValidateTokens.dimItems sec kvs = .ok l := by
  induction kvs with
  | nil => exact ⟨[], rfl⟩
  | cons kv rest ih =>
    obtain ⟨name, token⟩ := kv
    simp only [ValidateTokens.strValuesOk, List.all_cons, Bool.and_eq_true] at h
    obtain ⟨lr, hr⟩ := ih h.2
    have h1 := h.1
    simp only [ValidateTokens.dimItems]
    cases token <;> dsimp only at h1 ⊢ <;>
      try (simp only [pureBind]; rw [hr, okBind]; exact ⟨_, rfl⟩)
    rename_i t
    cases hv : Py.lookupKey t "value" <;> rw [hv] at h1
    · simp only [pureBind]; rw [hr, okBind]; exact ⟨_, rfl⟩
    · rename_i v
      cases v <;> dsimp only at h1 <;>
        first
          | (simp only [pureBind]; rw [hr, okBind]; exact ⟨_, rfl⟩)
          | exact absurd h1 Bool.false_ne_true

/-- The font-weight loop returns normally on int-convertible values. -/
theorem fwItems_ok (kvs : PyDict) (h : ValidateTokens.intableValuesOk kvs = true) :
    ∃ l, ValidateTokens.fwItems kvs = .ok l := by
  induction kvs with
  | nil => exact ⟨[], rfl⟩
  | cons kv rest ih =>
    obtain ⟨name, token⟩ := kv
    simp only [ValidateTokens.intableValuesOk, List.all_cons, Bool.and_eq_true] at h
    obtain ⟨lr, hr⟩ := ih h.2
    have h1 := h.1
    simp only [ValidateTokens.fwItems]
    cases token <;> dsimp only at h1 ⊢ <;>
      try (simp only [pureBind]; rw [hr, okBind]; exact ⟨_, rfl⟩)
    rename_i t
    cases hv : Py.lookupKey t "value" <;> rw [hv] at h1
    · simp only [pureBind]; rw [hr, okBind]; exact ⟨_, rfl⟩
    · rename_i v
      cases v <;> dsimp only at h1 <;>
        try exact absurd h1 Bool.false_ne_true
      · rename_i s
        simp only [Py.pyIntEx]
        cases hp : Py.pyIntOfStr s <;>
          (simp only [pureBind]; rw [hr, okBind]; exact ⟨_, rfl⟩)
      · simp only [Py.pyIntEx, pureBind]; rw [hr, okBind]; exact ⟨_, rfl⟩
      · simp only [Py.pyIntEx, pureBind]; rw [hr, okBind]; exact ⟨_, rfl⟩
      · simp only [Py.pyIntEx, pureBind]; rw [hr, okBind]; exact ⟨_, rfl⟩

/-- The meta pass returns normally on container-shaped meta. -/
theorem metaErrs_ok (data : PyDict) (h : ValidateTokens.metaOk data = true) :
    ∃ l, ValidateTokens.metaErrs data = .ok l := by
  unfold ValidateTokens.metaOk at h
  unfold ValidateTokens.metaErrs
  cases hm : Py.lookupKey data "meta" <;> rw [hm] at h
  · exact ⟨_, rfl⟩
  · rename_i j
    cases j <;> dsimp only at h <;>
      first
        | exact ⟨_, rfl⟩
        | exact absurd h Bool.false_ne_true

/-- The typography pass returns normally under the shape conditions. -/
theorem typoErrs_ok (data : PyDict) (h : ValidateTokens.typoOk data = true) :
    ∃ l, ValidateTokens.typoErrs data = .ok l := by
  unfold ValidateTokens.typoOk at h
  unfold ValidateTokens.typoErrs
  cases hm : Py.lookupKey data "typography" <;> rw [hm] at h
  · exact ⟨_, rfl⟩
  · rename_i j
    cases j <;> dsimp only at h <;> try exact absurd h Bool.false_ne_true
    rename_i tkvs
    rw [Bool.and_eq_true] at h
    obtain ⟨hfs, hfw⟩ := h
    dsimp only [Option.getD]
    cases hfsl : Py.lookupKey tkvs "font-size" <;> rw [hfsl] at hfs
    · simp only [pureBind]
      cases hfwl : Py.lookupKey tkvs "font-weight" <;> rw [hfwl] at hfw
      · exact ⟨_, rfl⟩
      · rename_i fw
        cases fw <;> dsimp only at hfw <;> try exact absurd hfw Bool.false_ne_true
        rename_i g
        obtain ⟨l2, h2⟩ := fwItems_ok g hfw
        simp only [Py.pyItems, okBind]
        rw [h2, okBind]
        exact ⟨_, rfl⟩
    · rename_i fs
      cases fs <;> dsimp only at hfs <;> try exact absurd hfs Bool.false_ne_true
      rename_i g1
      obtain ⟨l1, h1⟩ := fsItems_ok g1 hfs
      simp only [Py.pyItems, okBind]
      rw [h1, okBind]
      cases hfwl : Py.lookupKey tkvs "font-weight" <;> rw [hfwl] at hfw
      · simp only [pureBind]
        exact ⟨_, rfl⟩
      · rename_i fw
        cases fw <;> dsimp only at hfw <;> try exact absurd hfw Bool.false_ne_true
        rename_i g2
        obtain ⟨l2, h2⟩ := fwItems_ok g2 hfw
        simp only [Py.pyItems, okBind]
        rw [h2, okBind]
        exact ⟨_, rfl⟩

/-- The spacing pass returns normally under the shape conditions. -/
theorem spacingErrs_ok (data : PyDict)
    (h : ValidateTokens.secStrOk data "spacing" = true) :
    ∃ l, ValidateTokens.spacingErrs data = .ok l := by
  unfold ValidateTokens.secStrOk at h
  unfold ValidateTokens.spacingErrs
  cases hm : Py.lookupKey data "spacing" <;> rw [hm] at h
  · exact ⟨_, rfl⟩
  · rename_i j
    cases j <;> dsimp only at h <;> try exact absurd h Bool.false_ne_true
    rename_i kvs
    obtain ⟨l, hl⟩ := dimItems_ok "spacing" kvs h
    refine ⟨l, ?_⟩
    simp only [Py.pyItems, okBind]
    exact hl

/-- The borderRadius pass returns normally under the shape conditions. -/
theorem radiusErrs_ok (data : PyDict)
    (h : ValidateTokens.secStrOk data "borderRadius" = true) :
    ∃ l, ValidateTokens.radiusErrs data = .ok l := by
  unfold ValidateTokens.secStrOk at h
  unfold ValidateTokens.radiusErrs
  cases hm : Py.lookupKey data "borderRadius" <;> rw [hm] at h
  · exact ⟨_, rfl⟩
  · rename_i j
    cases j <;> dsimp only at h <;> try exact absurd h Bool.false_ne_true
    rename_i kvs
    obtain ⟨l, hl⟩ := dimItems_ok "borderRadius" kvs h
    refine ⟨l, ?_⟩
    simp only [Py.pyItems, okBind]
    exact hl

/-- The shadow pass returns normally when the section is a dict. -/
theorem shadowErrs_ok (data : PyDict)
    (h : ValidateTokens.dictOrAbsent data "shadow" = true) :
    ∃ l, ValidateTokens.shadowErrs data = .ok l := by
  unfold ValidateTokens.dictOrAbsent at h
  unfold ValidateTokens.shadowErrs
  cases hm : Py.lookupKey data "shadow" <;> rw [hm] at h
  · exact ⟨_, rfl⟩
  · rename_i j
    cases j <;> dsimp only at h <;>
      first
        | exact ⟨_, rfl⟩
        | exact absurd h Bool.false_ne_true

/-- The component pass returns normally when the section is a dict. -/
theorem componentErrs_ok (data : PyDict)
    (h : ValidateTokens.dictOrAbsent data "components" = true) :
    ∃ l, ValidateTokens.componentErrs data = .ok l := by
  unfold ValidateTokens.dictOrAbsent at h
  unfold ValidateTokens.componentErrs
  cases hm : Py.lookupKey data "components" <;> rw [hm] at h
  · exact ⟨_, rfl⟩
  · rename_i j
    cases j <;> dsimp only at h <;>
      first
        | exact ⟨_, rfl⟩
        | exact absurd h Bool.false_ne_true

/-- C3 (amended): on a well-shaped document — every iterated section an
object where present, every inspected value of a type its check accepts —
`validate` returns normally with the concatenation of all eight checks'
violation lists: no exception, and no check skipped because an earlier one
failed. -/
theorem c3_validate_accumulates_when_well_shaped (data : PyDict)
    (h : ValidateTokens.wellShaped data = true) :
    ∃ l2 l3 l4 l5 l6 l7 l8,
      ValidateTokens.metaErrs data = .ok l2 ∧
      ValidateTokens.colorErrs data = .ok l3 ∧
      ValidateTokens.typoErrs data = .ok l4 ∧
      ValidateTokens.spacingErrs data = .ok l5 ∧
      ValidateTokens.radiusErrs data = .ok l6 ∧
      ValidateTokens.shadowErrs data = .ok l7 ∧
      ValidateTokens.componentErrs data = .ok l8 ∧
      ValidateTokens.validate data = .ok
        (ValidateTokens.sectionErrs data ++ l2 ++ l3 ++ l4 ++ l5 ++ l6 ++ l7 ++ l8) := by
  unfold ValidateTokens.wellShaped at h
  simp only [Bool.and_eq_true] at h
  obtain ⟨⟨⟨⟨⟨⟨hmeta, hcolor⟩, htypo⟩, hspac⟩, hrad⟩, hsh⟩, hcomp⟩ := h
  obtain ⟨l2, h2⟩ := metaErrs_ok data hmeta
  obtain ⟨l3, h3⟩ := colorErrs_ok data hcolor
  obtain ⟨l4, h4⟩ := typoErrs_ok data htypo
  obtain ⟨l5, h5⟩ := spacingErrs_ok data hspac
  obtain ⟨l6, h6⟩ := radiusErrs_ok data hrad
  obtain ⟨l7, h7⟩ := shadowErrs_ok data hsh
  obtain ⟨l8, h8⟩ := componentErrs_ok data hcomp
  refine ⟨l2, l3, l4, l5, l6, l7, l8, h2, h3, h4, h5, h6, h7, h8, ?_⟩
  unfold ValidateTokens.validate
  rw [h2, okBind, h3, okBind, h4, okBind, h5, okBind, h6, okBind, h7, okBind, h8, okBind]
  rfl

/-- Witness for C3 (amended) at the concrete document `c3demoDoc`. -/
theorem c3_validate_accumulates_when_well_shaped_witness :
    ValidateTokens.wellShaped ValidateTokens.c3demoDoc = true ∧
    (∃ l2 l3 l4 l5 l6 l7 l8,
      ValidateTokens.metaErrs ValidateTokens.c3demoDoc = .ok l2 ∧
      ValidateTokens.colorErrs ValidateTokens.c3demoDoc = .ok l3 ∧
      ValidateTokens.typoErrs ValidateTokens.c3demoDoc = .ok l4 ∧
      ValidateTokens.spacingErrs ValidateTokens.c3demoDoc = .ok l5 ∧
      ValidateTokens.radiusErrs ValidateTokens.c3demoDoc = .ok l6 ∧
      ValidateTokens.shadowErrs ValidateTokens.c3demoDoc = .ok l7 ∧
      ValidateTokens.componentErrs ValidateTokens.c3demoDoc = .ok l8 ∧
      ValidateTokens.validate ValidateTokens.c3demoDoc = .ok
        (ValidateTokens.sectionErrs ValidateTokens.c3demoDoc ++
          l2 ++ l3 ++ l4 ++ l5 ++ l6 ++ l7 ++ l8)) :=
  ⟨by decide, c3_validate_accumulates_when_well_shaped ValidateTokens.c3demoDoc (by decide)⟩

/-- The reference loop keeps exactly the unresolved references, as errors. -/
theorem refItems_eq (all : List String) (comp prop : String) (rs : List String) :
    ValidateTokens.refItems all comp prop rs =
      (rs.filter (fun r => !all.contains (Py.pyStripBraces r))).map
        (ValidateTokens.refMsg comp prop) := by
  induction rs with
  | nil => rfl
  | cons r rest ih =>
    by_cases hr : Py.pyStripBraces r ∈ all <;>
      simp [ValidateTokens.refItems, List.filter_cons, List.contains, List.elem_eq_mem, hr, ih]

/-- Filtering mapped triples on their reference component commutes with
mapping. -/
theorem filter_map_trip (all : List String) (c pr : String) (rs : List String) :
    ((rs.map (fun r => (c, pr, r))).filter
        (fun t => !all.contains (Py.pyStripBraces t.2.2))) =
      (rs.filter (fun r => !all.contains (Py.pyStripBraces r))).map
        (fun r => (c, pr, r)) := by
  induction rs with
  | nil => rfl
  | cons r rest ih =>
    simp only [List.contains, List.elem_eq_mem] at ih
    by_cases hr : Py.pyStripBraces r ∈ all <;>
      simp [List.filter_cons, List.contains, List.elem_eq_mem, hr, ih]

/-- The property loop equals the filtered/mapped occurrence list. -/
theorem propItems_eq (all : List String) (comp : String) (props : PyDict) :
    ValidateTokens.propItems all comp props =
      ((ValidateTokens.refOccsProps comp props).filter
        (fun t => !all.contains (Py.pyStripBraces t.2.2))).map
        (fun t => ValidateTokens.refMsg t.1 t.2.1 t.2.2) := by
  induction props with
  | nil => rfl
  | cons kv rest ih =>
    obtain ⟨prop, v⟩ := kv
    simp only [ValidateTokens.propItems, ValidateTokens.refOccsProps]
    rw [List.filter_append, List.map_append, ih]
    congr 1
    cases v <;> try rfl
    rename_i s
    dsimp only
    rw [refItems_eq, filter_map_trip, List.map_map]
    rfl

/-- The component loop equals the filtered/mapped occurrence list. -/
theorem compItems_eq (all : List String) (comps : PyDict) :
    ValidateTokens.compItems all comps =
      ((ValidateTokens.refOccs comps).filter
        (fun t => !all.contains (Py.pyStripBraces t.2.2))).map
        (fun t => ValidateTokens.refMsg t.1 t.2.1 t.2.2) := by
  induction comps with
  | nil => rfl
  | cons kv rest ih =>
    obtain ⟨cn, cv⟩ := kv
    simp only [ValidateTokens.compItems, ValidateTokens.refOccs]
    rw [List.filter_append, List.map_append, ih]
    congr 1
    cases cv <;> first
      | rfl
      | exact propItems_eq all cn _

/-- C4: the component pass emits exactly one "reference not found" error
for each `{path}` occurrence whose stripped path is not a collected token
path, and none for resolvable occurrences; within a normal `validate` run
these errors form the tail of the error list. -/
theorem c4_component_refs_exact (data : PyDict) (comps : PyDict)
    (h : (Py.lookupKey data "components").getD (.obj []) = .obj comps) :
    ValidateTokens.componentErrs data = .ok (ValidateTokens.refErrsOf data comps) ∧
    ∀ errs, ValidateTokens.validate data = .ok errs →
      ∃ l, errs = l ++ ValidateTokens.refErrsOf data comps := by
  have hpass : ValidateTokens.componentErrs data =
      .ok (ValidateTokens.compItems (ValidateTokens.collect_token_paths "" data) comps) := by
    unfold ValidateTokens.componentErrs
    rw [h]
    rfl
  have heq : ValidateTokens.compItems (ValidateTokens.collect_token_paths "" data) comps =
      ValidateTokens.refErrsOf data comps := by
    rw [compItems_eq]
    rfl
  constructor
  · rw [hpass, heq]
  · intro errs hok
    obtain ⟨l2, l3, l4, l5, l6, l7, l8, h2, h3, h4, h5, h6, h7, h8, rfl⟩ :=
      validate_ok_decomp data errs hok
    refine ⟨ValidateTokens.sectionErrs data ++ l2 ++ l3 ++ l4 ++ l5 ++ l6 ++ l7, ?_⟩
    rw [hpass] at h8
    injection h8 with h8
    rw [← h8, heq]

/-- Witness for C4 at `c4doc`: one resolvable and one dangling reference,
producing exactly the dangling one's error. -/
theorem c4_component_refs_exact_witness :
    ValidateTokens.componentErrs ValidateTokens.c4doc =
      .ok (ValidateTokens.refErrsOf ValidateTokens.c4doc ValidateTokens.c4comps) :=
  (c4_component_refs_exact ValidateTokens.c4doc ValidateTokens.c4comps rfl).1

/-- C9 counterexample: a document without `borderRadius` on which
`validate` raises and so returns no error list at all. -/
theorem c9_missing_border_radius_counterexample :
    Py.hasKey ValidateTokens.c9badDoc "borderRadius" = false ∧
    ValidateTokens.validate ValidateTokens.c9badDoc = .error .typeError :=
  ⟨rfl, rfl⟩

/-- C4 counterexample: a document whose component property holds a dangling
`{missing.x}` reference, yet `validate` raises in the color pass and
produces no "reference not found" error. -/
theorem c4_component_refs_counterexample :
    ValidateTokens.refOccs [("button", .obj [("background", .str "\x7bmissing.x\x7d")])] =
      [("button", "background", "\x7bmissing.x\x7d")] ∧
    ("missing.x" ∈ ValidateTokens.collect_token_paths "" ValidateTokens.c4badDoc → False) ∧
    ValidateTokens.validate ValidateTokens.c4badDoc = .error .typeError := by
  refine ⟨rfl, ?_, rfl⟩
  intro hmem
  simp [ValidateTokens.collect_token_paths, ValidateTokens.c4badDoc, Py.hasKey,
    Py.lookupKey, List.lookup] at hmem
